import Mathlib

/-!
# iksettrace3: hook installer and event trampoline

A shallow embedding of `iksettrace3.c` (IKPdb debugger).  The C module keeps
three pieces of process state: the static `debuggerThreadIdent`, the static
table `whatstrings`, and, through the CPython API, the thread states linked
into the head interpreter.  Every function below takes that state explicitly
and returns the updated one.  Calls into the CPython runtime whose results
the module cannot predict (the user callable, the locals snapshot, string
interning, `PyThreadState_EnterTracing` / `LeaveTracing`) are fields of
`Host`; every reference-count operation and every runtime call the module
makes is appended to an effect log, in program order.
-/

namespace IkSetTrace

/-! ## Data model -/

/-- Identity of a live runtime object, the target of a non-NULL `PyObject *`.
A NULL pointer is `Option.none`. -/
inductive PyObject where
  | Py_None
  | unicode (s : String)
  | object (addr : Nat)
  deriving DecidableEq

/-- A `Py_tracefunc` function pointer: either this module's own
`trace_trampoline` or some other C function. -/
inductive Py_tracefunc where
  | trace_trampoline
  | foreign (addr : Nat)
  deriving DecidableEq

/-- The fields of `PyThreadState` the module reads or writes.  From 3.10 on
the flag `use_tracing` lives in `tstate->cframe`; it is kept here as one
field per thread. -/
structure PyThreadState where
  thread_id : Nat
  c_tracefunc : Option Py_tracefunc
  c_traceobj : Option PyObject
  c_profilefunc : Option Py_tracefunc
  c_profileobj : Option PyObject
  tracing : Int
  use_tracing : Int
  deriving DecidableEq

/-- The fields of `struct _frame` the module touches; `addr` is the address of
the frame, which is what `(PyObject *)frame` passes to the callable. -/
structure PyFrameObject where
  addr : Nat
  f_trace : Option PyObject
  f_lineno : Int
  f_trace_lines : Bool
  f_trace_opcodes : Bool
  deriving DecidableEq

/-- One entry of the effect log: a reference-count operation or a call into
the runtime, as made by the module. -/
inductive Effect where
  | Py_INCREF (o : PyObject)
  | Py_DECREF (o : PyObject)
  | PyFrame_GetLocals (frame : Nat)
  | PyFrame_FastToLocalsWithError (frame : Nat)
  | _PyObject_FastCall (callback : PyObject) (stack : List (Option PyObject))
  | PyFrame_LocalsToFast (frame : Nat) (clear : Int)
  | PyTraceBack_Here (frame : Nat)
  deriving DecidableEq

/-- The build configuration and the runtime entry points whose outcome is
decided outside the module.

* `PY_VERSION_HEX` selects the preprocessor branches.
* `PyThreadState_EnterTracing` / `PyThreadState_LeaveTracing` (called on
  3.11+ builds only) yield the new `(tracing, use_tracing)` pair of the
  thread state they are applied to; they write nothing else.
* `PyFrame_GetLocals` yields the locals mapping (NULL on failure),
  `PyFrame_FastToLocalsWithError` its status (negative on failure).
* `_PyObject_FastCall` yields what the callable returns (NULL when it
  raises); what the callable itself does to the interpreter is outside the
  model.
* `intern_ok` tells whether `PyUnicode_InternFromString` succeeds. -/
structure Host where
  PY_VERSION_HEX : Nat
  PyThreadState_EnterTracing : PyThreadState → Int × Int
  PyThreadState_LeaveTracing : PyThreadState → Int × Int
  PyFrame_GetLocals : PyFrameObject → Option PyObject
  PyFrame_FastToLocalsWithError : PyFrameObject → Int
  _PyObject_FastCall : PyObject → List (Option PyObject) → Option PyObject
  intern_ok : String → Bool

/-- The process state: the two statics of the module, the thread states of
the head interpreter in `PyInterpreterState_ThreadHead` / `PyThreadState_Next`
order, the position of the calling thread in that list, the runtime's
`_Py_TracingPossible` counter, and the effect log. -/
structure Process where
  debuggerThreadIdent : Int
  whatstrings : List (Option PyObject)
  threads : List PyThreadState
  current : Nat
  _Py_TracingPossible : Int
  effects : List Effect

/-- The event kind `PyTrace_CALL` of `pystate.h`. -/
def PyTrace_CALL : Nat := 0

/-- The static initialiser `whatstrings[7] = {NULL, ...}`. -/
def whatstrings_initial : List (Option PyObject) :=
  [none, none, none, none, none, none, none]

/-- The table `static const char * const whatnames[7]` of `trace_init`. -/
def whatnames : List String :=
  ["call", "exception", "line", "return", "c_call", "c_exception", "c_return"]

/-! ## Reference counting -/

/-- The macro `Py_XINCREF(o)`: no operation on NULL. -/
def Py_XINCREF : Option PyObject → List Effect
  | none => []
  | some o => [Effect.Py_INCREF o]

/-- The macro `Py_XDECREF(o)`: no operation on NULL. -/
def Py_XDECREF : Option PyObject → List Effect
  | none => []
  | some o => [Effect.Py_DECREF o]

/-- Change one log entry makes to the ownership count of `o`. -/
def Effect.delta (o : PyObject) : Effect → Int
  | Effect.Py_INCREF x => if x = o then 1 else 0
  | Effect.Py_DECREF x => if x = o then -1 else 0
  | _ => 0

/-- Net change a log makes to the ownership count of `o`. -/
def refDelta (o : PyObject) (es : List Effect) : Int :=
  (es.map (Effect.delta o)).sum

/-- Ownership count of `o` after running a log from the counts `rc`. -/
def ob_refcnt (rc : PyObject → Int) (es : List Effect) (o : PyObject) : Int :=
  rc o + refDelta o es

/-- Number of thread states whose `c_traceobj` slot holds `o`. -/
def slots (o : PyObject) (threads : List PyThreadState) : Nat :=
  threads.countP (fun t => t.c_traceobj = some o)

/-! ## trace_init, call_trampoline, trace_trampoline -/

/-- The call `PyUnicode_InternFromString(s)`: the interned string object for
`s`, the same object for the same characters, or NULL when the runtime cannot
allocate it. -/
def PyUnicode_InternFromString (host : Host) (s : String) : Option PyObject :=
  if host.intern_ok s then some (PyObject.unicode s) else none

/-- The `for (i = 0; i < 7; ++i)` loop of `trace_init`, with `k` iterations
left (`i = 7 - k`). -/
def trace_init_loop (host : Host) : Nat → List (Option PyObject) → Int × List (Option PyObject)
  | 0, ws => (0, ws)
  | k + 1, ws =>
    let i := 7 - (k + 1)
    if ws.getD i none = none then
      match PyUnicode_InternFromString host (whatnames.getD i "") with
      | none => (-1, ws)
      | some name => trace_init_loop host k (ws.set i (some name))
    else
      trace_init_loop host k ws

/-- Function `trace_init`: fills the empty slots of `whatstrings`; returns `-1`
at the first interning failure and `0` otherwise. -/
def trace_init (host : Host) (ws : List (Option PyObject)) : Int × List (Option PyObject) :=
  trace_init_loop host 7 ws

/-- The three-slot `stack` array `call_trampoline` passes to the callable:
the frame, `whatstrings[what]`, and `arg` or `Py_None` when `arg` is NULL.
Reading `whatstrings[what]` outside the table is undefined in C; the model
reads NULL there. -/
def call_trampoline_stack (ws : List (Option PyObject)) (frame : PyFrameObject) (what : Nat)
    (arg : Option PyObject) : List (Option PyObject) :=
  [some (PyObject.object frame.addr), ws.getD what none,
   some (match arg with | some a => a | none => PyObject.Py_None)]

/-- Function `call_trampoline`: returns the result of the callable (NULL on
failure) and the effects performed, in order. -/
def call_trampoline (host : Host) (ws : List (Option PyObject)) (callback : PyObject)
    (frame : PyFrameObject) (what : Nat) (arg : Option PyObject) :
    Option PyObject × List Effect :=
  let stack := call_trampoline_stack ws frame what arg
  if 0x030B00A1 ≤ host.PY_VERSION_HEX then
    match host.PyFrame_GetLocals frame with
    | none => (none, [Effect.PyFrame_GetLocals frame.addr])
    | some locals =>
      let result := host._PyObject_FastCall callback stack
      (result,
        [Effect.PyFrame_GetLocals frame.addr, Effect._PyObject_FastCall callback stack,
         Effect.Py_DECREF locals]
        ++ (if result = none then [Effect.PyTraceBack_Here frame.addr] else []))
  else
    if host.PyFrame_FastToLocalsWithError frame < 0 then
      (none, [Effect.PyFrame_FastToLocalsWithError frame.addr])
    else
      let result := host._PyObject_FastCall callback stack
      (result,
        [Effect.PyFrame_FastToLocalsWithError frame.addr,
         Effect._PyObject_FastCall callback stack,
         Effect.PyFrame_LocalsToFast frame.addr 1]
        ++ (if result = none then [Effect.PyTraceBack_Here frame.addr] else []))

/-- CPython's `PyEval_SetTrace(func, arg)`, an entry point of the runtime (not
part of this repository) that `IK_SetTrace` and `trace_trampoline` call.  It
acts on the calling thread state only, which is why `IK_SetTrace` walks the
thread states itself afterwards, and does there what the non-excluded branch
of that walk repeats: it takes a reference on `arg`, stores the pair in the
hook slot, releases the previous argument and recomputes the flag from the
two hooks.  It also keeps `_Py_TracingPossible` in step (the comment at its
call site).  A calling thread that is not linked into the head interpreter
lies outside the modelled state. -/
def PyEval_SetTrace (host : Host) (func : Option Py_tracefunc) (arg : Option PyObject)
    (s : Process) : Process :=
  match s.threads[s.current]? with
  | none => s
  | some tstate =>
    let temp := tstate.c_traceobj
    let flag_on : Int := if 0x030A00A1 ≤ host.PY_VERSION_HEX then 255 else 1
    let tstate1 : PyThreadState :=
      { tstate with
        c_tracefunc := func
        c_traceobj := arg
        use_tracing := if func.isSome || tstate.c_profilefunc.isSome then flag_on else 0 }
    { s with
      threads := s.threads.set s.current tstate1
      _Py_TracingPossible :=
        s._Py_TracingPossible + ((if func.isSome then 1 else 0)
          - (if tstate.c_tracefunc.isSome then 1 else 0))
      effects := s.effects ++ (Py_XINCREF arg ++ Py_XDECREF temp) }

/-- The handler `trace_trampoline` resolves: `self` on a call event, the
frame's `f_trace` on every other event. -/
def resolve_callback (self : Option PyObject) (frame : PyFrameObject) (what : Nat) :
    Option PyObject :=
  if what = PyTrace_CALL then self else frame.f_trace

/-- Function `trace_trampoline`: returns the C result, the updated frame and
the updated process state. -/
def trace_trampoline (host : Host) (s : Process) (self : Option PyObject)
    (frame : PyFrameObject) (what : Nat) (arg : Option PyObject) :
    Int × PyFrameObject × Process :=
  match resolve_callback self frame what with
  | none => (0, frame, s)
  | some callback =>
    let r := call_trampoline host s.whatstrings callback frame what arg
    let s1 : Process := { s with effects := s.effects ++ r.2 }
    match r.1 with
    | none =>
      let s2 := PyEval_SetTrace host none none s1
      -- Py_CLEAR(frame->f_trace)
      (-1, { frame with f_trace := none },
        { s2 with effects := s2.effects ++ Py_XDECREF frame.f_trace })
    | some result =>
      if result ≠ PyObject.Py_None then
        -- Py_XSETREF(frame->f_trace, result)
        (0, { frame with f_trace := some result },
          { s1 with effects := s1.effects ++ Py_XDECREF frame.f_trace })
      else
        (0, frame, { s1 with effects := s1.effects ++ [Effect.Py_DECREF result] })

/-! ## IK_UseTracing, IK_SetTrace and the two module functions -/

/-- Function `IK_UseTracing(tstate, use_tracing)`, one branch per build
configuration. -/
def IK_UseTracing (host : Host) (tstate : PyThreadState) (use_tracing : Bool) :
    PyThreadState :=
  if 0x030B00A1 ≤ host.PY_VERSION_HEX then
    if use_tracing then
      { tstate with
        tracing := (host.PyThreadState_EnterTracing tstate).1
        use_tracing := (host.PyThreadState_EnterTracing tstate).2 }
    else
      { tstate with
        tracing := (host.PyThreadState_LeaveTracing tstate).1
        use_tracing := (host.PyThreadState_LeaveTracing tstate).2 }
  else if 0x030A00A1 ≤ host.PY_VERSION_HEX then
    { tstate with
      tracing := tstate.tracing + (if use_tracing then 1 else -1)
      use_tracing := if use_tracing then 255 else 0 }
  else
    { tstate with
      tracing := tstate.tracing + (if use_tracing then 1 else -1)
      use_tracing := if use_tracing then 1 else 0 }

/-- The test of the loop of `IK_SetTrace`, negated: both sides cast to
`unsigned long` (64 bits). -/
def is_debugger_thread (thread_id : Nat) (debuggerThreadIdent : Int) : Bool :=
  decide (thread_id % 2 ^ 64 = (debuggerThreadIdent % 2 ^ 64).toNat)

/-- Body of the `while` loop of `IK_SetTrace` for one thread state: the
updated thread state and the reference-count operations, in order. -/
def IK_SetTrace_visit (host : Host) (func : Option Py_tracefunc) (arg : Option PyObject)
    (debuggerThreadIdent : Int) (loopThreadState : PyThreadState) :
    PyThreadState × List Effect :=
  if is_debugger_thread loopThreadState.thread_id debuggerThreadIdent = false then
    let temp := loopThreadState.c_traceobj
    let e1 := Py_XINCREF arg
    let t1 : PyThreadState := { loopThreadState with c_tracefunc := none, c_traceobj := none }
    let t2 := IK_UseTracing host t1 (t1.c_profilefunc.isSome)
    let e2 := Py_XDECREF temp
    let t3 : PyThreadState := { t2 with c_tracefunc := func, c_traceobj := arg }
    let t4 := IK_UseTracing host t3 (func.isSome || t3.c_profilefunc.isSome)
    (t4, e1 ++ e2)
  else
    let temp := loopThreadState.c_traceobj
    let t1 : PyThreadState := { loopThreadState with c_tracefunc := none, c_traceobj := none }
    let t2 := IK_UseTracing host t1 (t1.c_profilefunc.isSome)
    (t2, Py_XDECREF temp)

/-- The `while (loopThreadState)` walk of `IK_SetTrace`. -/
def IK_SetTrace_loop (host : Host) (func : Option Py_tracefunc) (arg : Option PyObject)
    (debuggerThreadIdent : Int) : List PyThreadState → List PyThreadState × List Effect
  | [] => ([], [])
  | t :: rest =>
    let r := IK_SetTrace_visit host func arg debuggerThreadIdent t
    let rs := IK_SetTrace_loop host func arg debuggerThreadIdent rest
    (r.1 :: rs.1, r.2 ++ rs.2)

/-- Function `IK_SetTrace(func, arg)`: registers the pair with the runtime on
the calling thread, then walks every thread state of the head interpreter. -/
def IK_SetTrace (host : Host) (func : Option Py_tracefunc) (arg : Option PyObject)
    (s : Process) : Process :=
  let s1 := PyEval_SetTrace host func arg s
  let r := IK_SetTrace_loop host func arg s1.debuggerThreadIdent s1.threads
  { s1 with threads := r.1, effects := s1.effects ++ r.2 }

/-- Function `_ik_set_trace_on(self, args)`, the module's `_set_trace_on`.
`args` is the outcome of `PyArg_ParseTuple(args, "Ol", ...)`: `none` when the
tuple is malformed, otherwise the tracer object and the thread identifier. -/
def _ik_set_trace_on (host : Host) (s : Process) (args : Option (PyObject × Int)) :
    Option PyObject × Process :=
  let r := trace_init host s.whatstrings
  let s1 : Process := { s with whatstrings := r.2 }
  if r.1 = -1 then (none, s1)
  else
    match args with
    | none => (none, s1)
    | some (traceObject, ident) =>
      let s2 : Process := { s1 with debuggerThreadIdent := ident }
      let s3 := IK_SetTrace host (some Py_tracefunc.trace_trampoline) (some traceObject) s2
      (some PyObject.Py_None,
        { s3 with effects := s3.effects ++ [Effect.Py_INCREF PyObject.Py_None] })

/-- Function `_ik_set_trace_off(self)`, the module's `_set_trace_off`. -/
def _ik_set_trace_off (host : Host) (s : Process) : Option PyObject × Process :=
  let s1 := IK_SetTrace host none none s
  (some PyObject.Py_None,
    { s1 with effects := s1.effects ++ [Effect.Py_INCREF PyObject.Py_None] })

/-! ## Views used in the statements -/

/-- The tracing-enabled flag of a thread state as the interpreter reads it. -/
def enabled_flag (t : PyThreadState) : Bool := t.use_tracing != 0

/-- A thread state without its `tracing` counter, the flag read as a
boolean. -/
def hook_view (t : PyThreadState) :
    Nat × Option Py_tracefunc × Option PyObject × Option Py_tracefunc × Option PyObject × Bool :=
  (t.thread_id, t.c_tracefunc, t.c_traceobj, t.c_profilefunc, t.c_profileobj, enabled_flag t)

/-- The thread id and the two hook slots of a thread state, without the flag
and the counter. -/
def slot_view (t : PyThreadState) :
    Nat × Option Py_tracefunc × Option PyObject × Option Py_tracefunc × Option PyObject :=
  (t.thread_id, t.c_tracefunc, t.c_traceobj, t.c_profilefunc, t.c_profileobj)

/-- The slots `IK_SetTrace(func, arg)` is expected to leave on a thread state,
computed from the thread id and the profiling slot. -/
def installed_slot_view (func : Option Py_tracefunc) (arg : Option PyObject)
    (debuggerThreadIdent : Int) (t : PyThreadState) :
    Nat × Option Py_tracefunc × Option PyObject × Option Py_tracefunc × Option PyObject :=
  if (t.thread_id : Int) % 2 ^ 64 = debuggerThreadIdent % 2 ^ 64 then
    (t.thread_id, none, none, t.c_profilefunc, t.c_profileobj)
  else
    (t.thread_id, func, arg, t.c_profilefunc, t.c_profileobj)

/-- The view `IK_SetTrace(func, arg)` is expected to leave on a thread state,
computed from what the walk does not write: the thread id and the profiling
slot. -/
def installed_view (func : Option Py_tracefunc) (arg : Option PyObject)
    (debuggerThreadIdent : Int) (t : PyThreadState) :
    Nat × Option Py_tracefunc × Option PyObject × Option Py_tracefunc × Option PyObject × Bool :=
  if (t.thread_id : Int) % 2 ^ 64 = debuggerThreadIdent % 2 ^ 64 then
    (t.thread_id, none, none, t.c_profilefunc, t.c_profileobj, t.c_profilefunc.isSome)
  else
    (t.thread_id, func, arg, t.c_profilefunc, t.c_profileobj,
      func.isSome || t.c_profilefunc.isSome)

/-- Whether a log entry is an invocation of a callable. -/
def Effect.is_call : Effect → Bool
  | Effect._PyObject_FastCall _ _ => true
  | _ => false

/-- The invocations of callables in a log, in order. -/
def calls (es : List Effect) : List Effect := es.filter Effect.is_call

/-- The table `trace_init` builds: slot `i` holds the interned string for
`whatnames[i]`. -/
def whatstrings_filled : List (Option PyObject) :=
  whatnames.map (fun n => some (PyObject.unicode n))

/-- What `whatstrings` can hold at any time: seven slots, each NULL (the static
initialiser) or the interned string `trace_init` stores there. -/
def whatstrings_ok (ws : List (Option PyObject)) : Prop :=
  ws.length = 7 ∧
    ∀ i, i < 7 → ws.getD i none = none ∨ ws.getD i none = whatstrings_filled.getD i none

/-- Loop invariant of `trace_init` with `k` iterations left: the table is
well-formed and the slots already visited are filled. -/
def filled_below (k : Nat) (ws : List (Option PyObject)) : Prop :=
  whatstrings_ok ws ∧ ∀ i, i < 7 - k → ws.getD i none = whatstrings_filled.getD i none

/-- What a walk of `IK_SetTrace` leaves untouched in a thread state. -/
def same_owner (t t1 : PyThreadState) : Prop :=
  t1.thread_id = t.thread_id ∧ t1.c_profilefunc = t.c_profilefunc ∧
    t1.c_profileobj = t.c_profileobj

/-- Whether the sync-in step of `call_trampoline` succeeds on this frame. -/
def sync_in_ok (host : Host) (frame : PyFrameObject) : Bool :=
  if 0x030B00A1 ≤ host.PY_VERSION_HEX then (host.PyFrame_GetLocals frame).isSome
  else decide (0 ≤ host.PyFrame_FastToLocalsWithError frame)

/-! ## Sample hosts and states -/

/-- A 3.9 build on which every runtime call succeeds and every callable
returns `None`. -/
def host39 : Host where
  PY_VERSION_HEX := 0x030900F0
  PyThreadState_EnterTracing := fun t => (t.tracing + 1, 0)
  PyThreadState_LeaveTracing := fun t => (t.tracing - 1, 0)
  PyFrame_GetLocals := fun _ => some (PyObject.object 900)
  PyFrame_FastToLocalsWithError := fun _ => 0
  _PyObject_FastCall := fun _ _ => some PyObject.Py_None
  intern_ok := fun _ => true

/-- A 3.11 build.  `PyThreadState_EnterTracing` suspends tracing (counter up,
flag cleared) and `PyThreadState_LeaveTracing` resumes it (counter down, flag
recomputed from the two hooks), as CPython 3.11 defines them. -/
def host311 : Host :=
  { host39 with
    PY_VERSION_HEX := 0x030B00F0
    PyThreadState_EnterTracing := fun t => (t.tracing + 1, 0)
    PyThreadState_LeaveTracing := fun t =>
      (t.tracing - 1, if t.c_tracefunc.isSome || t.c_profilefunc.isSome then 255 else 0) }

/-- A 3.9 build on which every callable raises (returns NULL). -/
def host39_raise : Host :=
  { host39 with _PyObject_FastCall := fun _ _ => none }

/-- A 3.12 build on which every runtime call succeeds and every callable
returns object 77. -/
def host312 : Host :=
  { host39 with
    PY_VERSION_HEX := 0x030C00F0
    _PyObject_FastCall := fun _ _ => some (PyObject.object 77) }

/-- A frame at address 100 whose `f_trace` holds object 7. -/
def sample_frame : PyFrameObject :=
  { addr := 100, f_trace := some (PyObject.object 7), f_lineno := 1,
    f_trace_lines := true, f_trace_opcodes := false }

/-- A thread state with no hooks. -/
def idle_thread (thread_id : Nat) : PyThreadState :=
  { thread_id := thread_id, c_tracefunc := none, c_traceobj := none,
    c_profilefunc := none, c_profileobj := none, tracing := 0, use_tracing := 0 }

/-- A thread state traced by the trampoline with tracer object `tracer`. -/
def traced_thread (thread_id : Nat) (tracer : PyObject) : PyThreadState :=
  { thread_id := thread_id, c_tracefunc := some Py_tracefunc.trace_trampoline,
    c_traceobj := some tracer, c_profilefunc := none, c_profileobj := none,
    tracing := 0, use_tracing := 1 }

/-- A thread state with a profiling hook and no trace hook. -/
def profiled_thread (thread_id : Nat) : PyThreadState :=
  { thread_id := thread_id, c_tracefunc := none, c_traceobj := none,
    c_profilefunc := some (Py_tracefunc.foreign 500), c_profileobj := some (PyObject.object 501),
    tracing := 0, use_tracing := 1 }

/-- A freshly loaded module in a process with two idle threads, called from
the first. -/
def fresh_process : Process :=
  { debuggerThreadIdent := 0, whatstrings := whatstrings_initial,
    threads := [idle_thread 1, idle_thread 2], current := 0,
    _Py_TracingPossible := 0, effects := [] }

/-- A process in which thread 1 (the debugger, calling) is idle, threads 2 and
3 are traced with tracer object 7 and thread 4 is profiled; the token table
is filled. -/
def traced_process : Process :=
  { debuggerThreadIdent := 1,
    whatstrings := whatstrings_filled,
    threads := [idle_thread 1, traced_thread 2 (PyObject.object 7),
      traced_thread 3 (PyObject.object 7), profiled_thread 4],
    current := 0, _Py_TracingPossible := 0, effects := [] }

/-- The process `traced_process` while thread 2 dispatches an event. -/
def dispatching_process : Process :=
  { traced_process with current := 1 }

/-! ## The installer: helper lemmas -/

theorem IK_UseTracing_fields (host : Host) (t : PyThreadState) (b : Bool) :
    (IK_UseTracing host t b).thread_id = t.thread_id ∧
    (IK_UseTracing host t b).c_tracefunc = t.c_tracefunc ∧
    (IK_UseTracing host t b).c_traceobj = t.c_traceobj ∧
    (IK_UseTracing host t b).c_profilefunc = t.c_profilefunc ∧
    (IK_UseTracing host t b).c_profileobj = t.c_profileobj := by
  unfold IK_UseTracing
  split_ifs <;> simp

theorem IK_UseTracing_flag (host : Host) (hlt : host.PY_VERSION_HEX < 0x030B00A1)
    (t : PyThreadState) (b : Bool) : enabled_flag (IK_UseTracing host t b) = b := by
  unfold IK_UseTracing enabled_flag
  have hv : ¬ 0x030B00A1 ≤ host.PY_VERSION_HEX := not_le.mpr hlt
  · cases b
    · simp [hv]
    · simp only [hv, if_false, if_true]
      split_ifs <;> simp

theorem IK_SetTrace_visit_fields (host : Host) (func : Option Py_tracefunc)
    (arg : Option PyObject) (ident : Int) (t : PyThreadState) :
    same_owner t (IK_SetTrace_visit host func arg ident t).1 ∧
    (is_debugger_thread t.thread_id ident = false →
      (IK_SetTrace_visit host func arg ident t).1.c_tracefunc = func ∧
      (IK_SetTrace_visit host func arg ident t).1.c_traceobj = arg ∧
      (IK_SetTrace_visit host func arg ident t).2 = Py_XINCREF arg ++ Py_XDECREF t.c_traceobj) ∧
    (is_debugger_thread t.thread_id ident = true →
      (IK_SetTrace_visit host func arg ident t).1.c_tracefunc = none ∧
      (IK_SetTrace_visit host func arg ident t).1.c_traceobj = none ∧
      (IK_SetTrace_visit host func arg ident t).2 = Py_XDECREF t.c_traceobj) := by
  unfold IK_SetTrace_visit same_owner
  by_cases hd : is_debugger_thread t.thread_id ident = false
  · simp [hd, IK_UseTracing_fields]
  · simp at hd
    simp [hd, IK_UseTracing_fields]

theorem IK_SetTrace_visit_flag (host : Host) (hflag : host.PY_VERSION_HEX < 0x030B00A1)
    (func : Option Py_tracefunc) (arg : Option PyObject) (ident : Int) (t : PyThreadState) :
    enabled_flag (IK_SetTrace_visit host func arg ident t).1 =
      if is_debugger_thread t.thread_id ident = false then
        (func.isSome || t.c_profilefunc.isSome)
      else t.c_profilefunc.isSome := by
  unfold IK_SetTrace_visit
  by_cases hd : is_debugger_thread t.thread_id ident = false
  · simp [hd, IK_UseTracing_flag host hflag, IK_UseTracing_fields]
  · simp at hd
    simp [hd, IK_UseTracing_flag host hflag, IK_UseTracing_fields]

theorem IK_SetTrace_loop_fst (host : Host) (func : Option Py_tracefunc)
    (arg : Option PyObject) (ident : Int) (l : List PyThreadState) :
    (IK_SetTrace_loop host func arg ident l).1 =
      l.map (fun t => (IK_SetTrace_visit host func arg ident t).1) := by
  induction l with
  | nil => rfl
  | cons t rest ih => simp [IK_SetTrace_loop, ih]

theorem IK_SetTrace_loop_snd (host : Host) (func : Option Py_tracefunc)
    (arg : Option PyObject) (ident : Int) (l : List PyThreadState) :
    (IK_SetTrace_loop host func arg ident l).2 =
      (l.map (fun t => (IK_SetTrace_visit host func arg ident t).2)).flatten := by
  induction l with
  | nil => rfl
  | cons t rest ih => simp [IK_SetTrace_loop, ih]

theorem PyEval_SetTrace_threads (host : Host) (func : Option Py_tracefunc)
    (arg : Option PyObject) (s : Process) :
    List.Forall₂ same_owner s.threads (PyEval_SetTrace host func arg s).threads := by
  unfold PyEval_SetTrace
  cases hc : s.threads[s.current]? with
  | none =>
    simp only
    exact List.forall₂_same.mpr (fun t _ => ⟨rfl, rfl, rfl⟩)
  | some tstate =>
    simp only
    rw [List.forall₂_iff_get]
    refine ⟨by simp, ?_⟩
    intro i h1 h2
    simp only [List.get_eq_getElem, List.getElem_set]
    by_cases hi : s.current = i
    · subst hi
      have ht : s.threads[s.current] = tstate := by
        rw [List.getElem?_eq_getElem h1] at hc
        exact Option.some.inj hc
      rw [if_pos rfl, ht]
      exact ⟨rfl, rfl, rfl⟩
    · rw [if_neg hi]
      exact ⟨rfl, rfl, rfl⟩

theorem PyEval_SetTrace_statics (host : Host) (func : Option Py_tracefunc)
    (arg : Option PyObject) (s : Process) :
    (PyEval_SetTrace host func arg s).debuggerThreadIdent = s.debuggerThreadIdent ∧
    (PyEval_SetTrace host func arg s).whatstrings = s.whatstrings ∧
    (PyEval_SetTrace host func arg s).current = s.current := by
  unfold PyEval_SetTrace
  cases s.threads[s.current]? <;> simp

theorem PyEval_SetTrace_others (host : Host) (func : Option Py_tracefunc)
    (arg : Option PyObject) (s : Process) (i : Nat) (hi : i ≠ s.current) :
    (PyEval_SetTrace host func arg s).threads[i]? = s.threads[i]? := by
  unfold PyEval_SetTrace
  cases hc : s.threads[s.current]? with
  | none => rfl
  | some tstate =>
    simp only
    rw [List.getElem?_set, if_neg (Ne.symm hi)]

theorem PyEval_SetTrace_current (host : Host) (func : Option Py_tracefunc)
    (arg : Option PyObject) (s : Process) (t : PyThreadState)
    (h : (PyEval_SetTrace host func arg s).threads[s.current]? = some t) :
    t.c_tracefunc = func ∧ t.c_traceobj = arg := by
  unfold PyEval_SetTrace at h
  cases hc : s.threads[s.current]? with
  | none =>
    rw [hc] at h
    simp only at h
    rw [hc] at h
    exact absurd h (by simp)
  | some tstate =>
    rw [hc] at h
    simp only at h
    have hlt : s.current < s.threads.length := by
      by_contra hge
      rw [List.getElem?_eq_none (not_lt.mp hge)] at hc
      exact absurd hc (by simp)
    rw [List.getElem?_set, if_pos rfl, if_pos hlt] at h
    cases h
    exact ⟨rfl, rfl⟩

theorem forall₂_map_visit {R : PyThreadState → PyThreadState → Prop}
    {f : PyThreadState → PyThreadState} {l l1 : List PyThreadState}
    (h : List.Forall₂ same_owner l l1)
    (hR : ∀ t t1, same_owner t t1 → R t (f t1)) :
    List.Forall₂ R l (l1.map f) := by
  rw [List.forall₂_map_right_iff]
  exact h.imp hR

theorem forall₂_and {α β : Type} {R S : α → β → Prop} {l : List α} {l1 : List β}
    (h1 : List.Forall₂ R l l1) (h2 : List.Forall₂ S l l1) :
    List.Forall₂ (fun a b => R a b ∧ S a b) l l1 := by
  induction h1 with
  | nil => exact List.Forall₂.nil
  | cons hab _ ih =>
    cases h2 with
    | cons hs ht => exact List.Forall₂.cons ⟨hab, hs⟩ (ih ht)

theorem map_eq_of_forall₂ {α β γ : Type} {f : α → γ} {g : β → γ} {l : List α} {l1 : List β}
    (h : List.Forall₂ (fun a b => g b = f a) l l1) : l1.map g = l.map f := by
  induction h with
  | nil => rfl
  | cons hab _ ih => simp [hab, ih]

theorem IK_SetTrace_threads (host : Host) (func : Option Py_tracefunc)
    (arg : Option PyObject) (s : Process) :
    (IK_SetTrace host func arg s).threads =
      (PyEval_SetTrace host func arg s).threads.map
        (fun t => (IK_SetTrace_visit host func arg s.debuggerThreadIdent t).1) := by
  simp [IK_SetTrace, IK_SetTrace_loop_fst, PyEval_SetTrace_statics]

theorem IK_SetTrace_statics (host : Host) (func : Option Py_tracefunc)
    (arg : Option PyObject) (s : Process) :
    (IK_SetTrace host func arg s).debuggerThreadIdent = s.debuggerThreadIdent ∧
    (IK_SetTrace host func arg s).whatstrings = s.whatstrings ∧
    (IK_SetTrace host func arg s).current = s.current := by
  simp [IK_SetTrace, PyEval_SetTrace_statics]

theorem is_debugger_thread_unsigned (thread_id : Nat) (ident : Int) :
    is_debugger_thread thread_id ident = true ↔
      (thread_id : Int) % 2 ^ 64 = ident % 2 ^ 64 := by
  unfold is_debugger_thread
  rw [decide_eq_true_iff]
  omega

theorem is_debugger_thread_unsigned_false (thread_id : Nat) (ident : Int) :
    is_debugger_thread thread_id ident = false ↔
      ¬ ((thread_id : Int) % 2 ^ 64 = ident % 2 ^ 64) := by
  rw [← is_debugger_thread_unsigned, Bool.not_eq_true]

/-- Postcondition of `IK_SetTrace` on the hook slots, context by context; the
contexts are told apart by comparing the thread id with the stored one as
unsigned long values. -/
theorem IK_SetTrace_post_hooks (host : Host) (func : Option Py_tracefunc)
    (arg : Option PyObject) (s : Process) :
    List.Forall₂
      (fun t t1 =>
        same_owner t t1 ∧
        (¬ ((t.thread_id : Int) % 2 ^ 64 = s.debuggerThreadIdent % 2 ^ 64) →
          t1.c_tracefunc = func ∧ t1.c_traceobj = arg) ∧
        ((t.thread_id : Int) % 2 ^ 64 = s.debuggerThreadIdent % 2 ^ 64 →
          t1.c_tracefunc = none ∧ t1.c_traceobj = none))
      s.threads (IK_SetTrace host func arg s).threads := by
  rw [IK_SetTrace_threads]
  refine forall₂_map_visit (PyEval_SetTrace_threads host func arg s) ?_
  intro t t1 ht
  have hv := IK_SetTrace_visit_fields host func arg s.debuggerThreadIdent t1
  obtain ⟨ho, hn, hd⟩ := hv
  unfold same_owner at ho ht ⊢
  rw [ht.1] at hn hd
  refine ⟨⟨ho.1.trans ht.1, ho.2.1.trans ht.2.1, ho.2.2.trans ht.2.2⟩, ?_, ?_⟩
  · intro h
    have h2 := (is_debugger_thread_unsigned_false _ _).mpr h
    exact ⟨(hn h2).1, (hn h2).2.1⟩
  · intro h
    have h2 := (is_debugger_thread_unsigned _ _).mpr h
    exact ⟨(hd h2).1, (hd h2).2.1⟩

/-- Postcondition of `IK_SetTrace` on the flag, context by context, on the
builds that write the flag themselves. -/
theorem IK_SetTrace_post_flag (host : Host) (hlt : host.PY_VERSION_HEX < 0x030B00A1)
    (func : Option Py_tracefunc) (arg : Option PyObject) (s : Process) :
    List.Forall₂
      (fun t t1 =>
        enabled_flag t1 =
          if (t.thread_id : Int) % 2 ^ 64 = s.debuggerThreadIdent % 2 ^ 64 then
            t.c_profilefunc.isSome
          else (func.isSome || t.c_profilefunc.isSome))
      s.threads (IK_SetTrace host func arg s).threads := by
  rw [IK_SetTrace_threads]
  refine forall₂_map_visit (PyEval_SetTrace_threads host func arg s) ?_
  intro t t1 ht
  rw [IK_SetTrace_visit_flag host hlt, ht.1, ht.2.1]
  by_cases hx : (t.thread_id : Int) % 2 ^ 64 = s.debuggerThreadIdent % 2 ^ 64
  · rw [if_pos hx, if_neg]
    rw [(is_debugger_thread_unsigned _ _).mpr hx]
    decide
  · rw [if_neg hx, if_pos ((is_debugger_thread_unsigned_false _ _).mpr hx)]

theorem IK_SetTrace_slot_view (host : Host) (func : Option Py_tracefunc)
    (arg : Option PyObject) (s : Process) :
    (IK_SetTrace host func arg s).threads.map slot_view =
      s.threads.map (installed_slot_view func arg s.debuggerThreadIdent) := by
  apply map_eq_of_forall₂
  refine (IK_SetTrace_post_hooks host func arg s).imp ?_
  intro t t1 ⟨ho, hn, hd⟩
  unfold slot_view installed_slot_view
  unfold same_owner at ho
  by_cases hx : (t.thread_id : Int) % 2 ^ 64 = s.debuggerThreadIdent % 2 ^ 64
  · rw [if_pos hx, ho.1, ho.2.1, ho.2.2, (hd hx).1, (hd hx).2]
  · rw [if_neg hx, ho.1, ho.2.1, ho.2.2, (hn hx).1, (hn hx).2]

theorem IK_SetTrace_view (host : Host) (hlt : host.PY_VERSION_HEX < 0x030B00A1)
    (func : Option Py_tracefunc) (arg : Option PyObject) (s : Process) :
    (IK_SetTrace host func arg s).threads.map hook_view =
      s.threads.map (installed_view func arg s.debuggerThreadIdent) := by
  apply map_eq_of_forall₂
  refine (forall₂_and (IK_SetTrace_post_hooks host func arg s)
    (IK_SetTrace_post_flag host hlt func arg s)).imp ?_
  intro t t1 ⟨⟨ho, hn, hd⟩, hfl⟩
  unfold hook_view installed_view
  unfold same_owner at ho
  by_cases hx : (t.thread_id : Int) % 2 ^ 64 = s.debuggerThreadIdent % 2 ^ 64
  · rw [if_pos hx] at hfl ⊢
    rw [ho.1, ho.2.1, ho.2.2, (hd hx).1, (hd hx).2, hfl]
  · rw [if_neg hx] at hfl ⊢
    rw [ho.1, ho.2.1, ho.2.2, (hn hx).1, (hn hx).2, hfl]

theorem installed_view_congr (func : Option Py_tracefunc) (arg : Option PyObject)
    (ident : Int) {l l1 : List PyThreadState} (h : List.Forall₂ same_owner l l1) :
    l1.map (installed_view func arg ident) = l.map (installed_view func arg ident) := by
  apply map_eq_of_forall₂
  refine h.imp ?_
  intro t t1 ho
  unfold same_owner at ho
  unfold installed_view
  rw [ho.1, ho.2.1, ho.2.2]

theorem installed_slot_view_congr (func : Option Py_tracefunc) (arg : Option PyObject)
    (ident : Int) {l l1 : List PyThreadState} (h : List.Forall₂ same_owner l l1) :
    l1.map (installed_slot_view func arg ident) = l.map (installed_slot_view func arg ident) := by
  apply map_eq_of_forall₂
  refine h.imp ?_
  intro t t1 ho
  unfold same_owner at ho
  unfold installed_slot_view
  rw [ho.1, ho.2.1, ho.2.2]

theorem IK_SetTrace_same_owner (host : Host) (func : Option Py_tracefunc)
    (arg : Option PyObject) (s : Process) :
    List.Forall₂ same_owner s.threads (IK_SetTrace host func arg s).threads :=
  (IK_SetTrace_post_hooks host func arg s).imp (fun _ _ h => h.1)

theorem is_debugger_thread_iff (thread_id : Nat) (ident : Int)
    (ht : thread_id < 2 ^ 64) (h0 : 0 ≤ ident) (h1 : ident < 2 ^ 64) :
    is_debugger_thread thread_id ident = true ↔ (thread_id : Int) = ident := by
  unfold is_debugger_thread
  rw [decide_eq_true_iff, Nat.mod_eq_of_lt ht, Int.emod_eq_of_lt h0 h1]
  omega

/-! ## Reference counts: helper lemmas -/

theorem refDelta_append (o : PyObject) (a b : List Effect) :
    refDelta o (a ++ b) = refDelta o a + refDelta o b := by
  simp [refDelta]

theorem refDelta_XINCREF (o : PyObject) (x : Option PyObject) :
    refDelta o (Py_XINCREF x) = if x = some o then 1 else 0 := by
  cases x with
  | none => simp [Py_XINCREF, refDelta]
  | some y => simp [Py_XINCREF, refDelta, Effect.delta]

theorem refDelta_XDECREF (o : PyObject) (x : Option PyObject) :
    refDelta o (Py_XDECREF x) = - (if x = some o then 1 else 0) := by
  cases x with
  | none => simp [Py_XDECREF, refDelta]
  | some y =>
    simp only [Py_XDECREF, refDelta, Effect.delta, List.map_cons, List.map_nil, List.sum_cons,
      List.sum_nil, Option.some.injEq]
    split_ifs <;> simp

theorem slots_cons (o : PyObject) (t : PyThreadState) (l : List PyThreadState) :
    (slots o (t :: l) : Int) = (if t.c_traceobj = some o then 1 else 0) + slots o l := by
  unfold slots
  rw [List.countP_cons]
  by_cases h : t.c_traceobj = some o
  · simp [h]; omega
  · simp [h]

theorem slots_set (o : PyObject) (l : List PyThreadState) (i : Nat) (t t1 : PyThreadState)
    (h : l[i]? = some t) :
    (slots o (l.set i t1) : Int) =
      slots o l + (if t1.c_traceobj = some o then 1 else 0)
        - (if t.c_traceobj = some o then 1 else 0) := by
  induction l generalizing i with
  | nil => simp at h
  | cons a rest ih =>
    cases i with
    | zero =>
      simp at h
      subst h
      rw [List.set_cons_zero, slots_cons, slots_cons]
      ring
    | succ j =>
      simp at h
      rw [List.set_cons_succ, slots_cons, slots_cons, ih j h]
      ring

theorem IK_SetTrace_visit_balance (host : Host) (func : Option Py_tracefunc)
    (arg : Option PyObject) (ident : Int) (t : PyThreadState) (o : PyObject) :
    refDelta o (IK_SetTrace_visit host func arg ident t).2 =
      (if (IK_SetTrace_visit host func arg ident t).1.c_traceobj = some o then 1 else 0)
        - (if t.c_traceobj = some o then 1 else 0) := by
  obtain ⟨_, hn, hd⟩ := IK_SetTrace_visit_fields host func arg ident t
  by_cases hx : is_debugger_thread t.thread_id ident = false
  · rw [(hn hx).2.2, (hn hx).2.1, refDelta_append, refDelta_XINCREF, refDelta_XDECREF]
    ring
  · simp only [Bool.not_eq_false] at hx
    rw [(hd hx).2.2, (hd hx).2.1, refDelta_XDECREF]
    simp

theorem IK_SetTrace_loop_balance (host : Host) (func : Option Py_tracefunc)
    (arg : Option PyObject) (ident : Int) (l : List PyThreadState) (o : PyObject) :
    refDelta o (IK_SetTrace_loop host func arg ident l).2 =
      (slots o (IK_SetTrace_loop host func arg ident l).1 : Int) - slots o l := by
  induction l with
  | nil => simp [IK_SetTrace_loop, refDelta, slots]
  | cons t rest ih =>
    simp only [IK_SetTrace_loop]
    rw [refDelta_append, slots_cons, slots_cons, ih, IK_SetTrace_visit_balance]
    ring

theorem PyEval_SetTrace_balance (host : Host) (func : Option Py_tracefunc)
    (arg : Option PyObject) (s : Process) (o : PyObject) :
    ∃ es, (PyEval_SetTrace host func arg s).effects = s.effects ++ es ∧
      refDelta o es = (slots o (PyEval_SetTrace host func arg s).threads : Int)
        - slots o s.threads := by
  unfold PyEval_SetTrace
  cases hc : s.threads[s.current]? with
  | none => exact ⟨[], by simp, by simp [refDelta]⟩
  | some tstate =>
    refine ⟨Py_XINCREF arg ++ Py_XDECREF tstate.c_traceobj, rfl, ?_⟩
    simp only
    rw [slots_set o s.threads s.current tstate _ hc, refDelta_append, refDelta_XINCREF,
      refDelta_XDECREF]
    ring

/-! ## trace_init: helper lemmas -/

theorem whatstrings_filled_getD (i : Nat) (hi : i < 7) :
    whatstrings_filled.getD i none = some (PyObject.unicode (whatnames.getD i "")) := by
  interval_cases i <;> rfl

theorem whatstrings_initial_ok : whatstrings_ok whatstrings_initial := by
  refine ⟨rfl, ?_⟩
  intro i hi
  left
  interval_cases i <;> rfl

theorem whatstrings_filled_ok : whatstrings_ok whatstrings_filled := by
  refine ⟨rfl, ?_⟩
  intro i _
  right
  rfl

theorem trace_init_loop_fills (host : Host) (k : Nat) (hk : k ≤ 7)
    (ws : List (Option PyObject)) (hws : filled_below k ws)
    (hret : (trace_init_loop host k ws).1 = 0) :
    filled_below 0 (trace_init_loop host k ws).2 := by
  induction k generalizing ws with
  | zero => simpa [trace_init_loop] using hws
  | succ k ih =>
    have hi : 7 - (k + 1) < 7 := by omega
    obtain ⟨⟨hlen, hok⟩, hpre⟩ := hws
    unfold trace_init_loop at hret ⊢
    simp only at hret ⊢
    by_cases hnone : ws.getD (7 - (k + 1)) none = none
    · rw [if_pos hnone] at hret ⊢
      unfold PyUnicode_InternFromString at hret ⊢
      by_cases hint : host.intern_ok (whatnames.getD (7 - (k + 1)) "") = true
      · rw [if_pos hint] at hret ⊢
        simp only at hret ⊢
        refine ih (by omega) _ ?_ hret
        have hset : ∀ j, j < 7 →
            (ws.set (7 - (k + 1)) (some (PyObject.unicode (whatnames.getD (7 - (k + 1)) "")))).getD
              j none = if j = 7 - (k + 1) then whatstrings_filled.getD j none
                else ws.getD j none := by
          intro j hj
          by_cases hji : j = 7 - (k + 1)
          · have h6 : 6 - k < 7 := by omega
            rw [if_pos hji, hji, whatstrings_filled_getD _ hi]
            simp [List.getD_eq_getElem?_getD, List.getElem?_set, hlen, h6]
          · have h6 : ¬ 6 - k = j := by omega
            rw [if_neg hji]
            simp [List.getD_eq_getElem?_getD, List.getElem?_set, h6]
        refine ⟨⟨by simpa using hlen, ?_⟩, ?_⟩
        · intro j hj
          rw [hset j hj]
          split_ifs
          · exact Or.inr rfl
          · exact hok j hj
        · intro j hj
          rw [hset j (by omega)]
          split_ifs with hji
          · rfl
          · exact hpre j (by omega)
      · rw [if_neg hint] at hret
        simp at hret
    · rw [if_neg hnone] at hret ⊢
      refine ih (by omega) _ ⟨⟨hlen, hok⟩, ?_⟩ hret
      intro j hj
      by_cases hji : j = 7 - (k + 1)
      · rw [hji]
        rcases hok _ hi with h | h
        · exact absurd h hnone
        · exact h
      · exact hpre j (by omega)

theorem trace_init_fills (host : Host) (ws : List (Option PyObject))
    (hws : whatstrings_ok ws) (hret : (trace_init host ws).1 = 0) :
    (trace_init host ws).2 = whatstrings_filled := by
  unfold trace_init at hret ⊢
  have h := trace_init_loop_fills host 7 (le_refl 7) ws ⟨hws, fun i hi => by omega⟩ hret
  obtain ⟨⟨hlen, _⟩, hall⟩ := h
  apply List.ext_getElem?
  intro n
  by_cases hn : n < 7
  · have := hall n (by omega)
    rw [List.getD_eq_getElem?_getD, List.getD_eq_getElem?_getD] at this
    have h1 : n < (trace_init_loop host 7 ws).2.length := by omega
    have h2 : n < whatstrings_filled.length := by
      simpa [whatstrings_filled, whatnames] using hn
    rw [List.getElem?_eq_getElem h1, List.getElem?_eq_getElem h2] at this ⊢
    simpa using this
  · have h1 : (trace_init_loop host 7 ws).2.length ≤ n := by omega
    have h2 : whatstrings_filled.length ≤ n := by
      simp [whatstrings_filled, whatnames]; omega
    rw [List.getElem?_eq_none h1, List.getElem?_eq_none h2]

theorem trace_init_filled (host : Host) :
    trace_init host whatstrings_filled = (0, whatstrings_filled) := by
  simp [trace_init, trace_init_loop, whatstrings_filled, whatnames]

theorem trace_init_loop_preserves_ok (host : Host) (k : Nat) (ws : List (Option PyObject))
    (hws : whatstrings_ok ws) : whatstrings_ok (trace_init_loop host k ws).2 := by
  induction k generalizing ws with
  | zero => simpa [trace_init_loop] using hws
  | succ k ih =>
    unfold trace_init_loop
    simp only
    split_ifs with hnone
    · unfold PyUnicode_InternFromString
      split_ifs with hint
      · simp only
        apply ih
        obtain ⟨hlen, hok⟩ := hws
        have hi : 7 - (k + 1) < 7 := by omega
        refine ⟨by simpa using hlen, ?_⟩
        intro j hj
        by_cases hji : j = 7 - (k + 1)
        · right
          have h6 : 6 - k < ws.length := by omega
          rw [hji, whatstrings_filled_getD _ hi]
          simp [List.getD_eq_getElem?_getD, List.getElem?_set, h6]
        · have h6 : ¬ 6 - k = j := by omega
          have := hok j hj
          simpa [List.getD_eq_getElem?_getD, List.getElem?_set, h6] using this
      · simpa using hws
    · exact ih ws hws

theorem trace_init_preserves_ok (host : Host) (ws : List (Option PyObject))
    (hws : whatstrings_ok ws) : whatstrings_ok (trace_init host ws).2 :=
  trace_init_loop_preserves_ok host 7 ws hws

theorem ik_set_trace_on_view (host : Host) (s : Process)
    (h : PyObject) (excluded : Int) (hinit : (trace_init host s.whatstrings).1 = 0) :
    (_ik_set_trace_on host s (some (h, excluded))).1 = some PyObject.Py_None ∧
    (_ik_set_trace_on host s (some (h, excluded))).2.whatstrings
      = (trace_init host s.whatstrings).2 ∧
    List.Forall₂ same_owner s.threads
      (_ik_set_trace_on host s (some (h, excluded))).2.threads ∧
    (_ik_set_trace_on host s (some (h, excluded))).2.threads.map slot_view
      = s.threads.map
          (installed_slot_view (some Py_tracefunc.trace_trampoline) (some h) excluded) ∧
    (host.PY_VERSION_HEX < 0x030B00A1 →
      (_ik_set_trace_on host s (some (h, excluded))).2.threads.map hook_view
        = s.threads.map
            (installed_view (some Py_tracefunc.trace_trampoline) (some h) excluded)) := by
  have hne : ¬ ((trace_init host s.whatstrings).1 = -1) := by rw [hinit]; decide
  refine ⟨?_, ?_, ?_, ?_, ?_⟩
  · simp [_ik_set_trace_on, hne]
  · simp [_ik_set_trace_on, hne, IK_SetTrace_statics]
  · simp only [_ik_set_trace_on, hne, if_false]
    exact IK_SetTrace_same_owner host (some Py_tracefunc.trace_trampoline) (some h)
      { s with whatstrings := (trace_init host s.whatstrings).2, debuggerThreadIdent := excluded }
  · simp only [_ik_set_trace_on, hne, if_false]
    exact IK_SetTrace_slot_view host (some Py_tracefunc.trace_trampoline) (some h)
      { s with whatstrings := (trace_init host s.whatstrings).2, debuggerThreadIdent := excluded }
  · intro hlt
    simp only [_ik_set_trace_on, hne, if_false]
    exact IK_SetTrace_view host hlt (some Py_tracefunc.trace_trampoline) (some h)
      { s with whatstrings := (trace_init host s.whatstrings).2, debuggerThreadIdent := excluded }

/-- What `_ik_set_trace_on(h, excluded)` leaves on every context, for any
thread list and any prior slots, when `trace_init` succeeds.  A context whose
thread id differs from `excluded` (as unsigned long values, the comparison
the loop makes) has hook `trace_trampoline` and hook argument `h`; a context
whose thread id equals it has hook NULL and hook argument NULL.  On builds
below 3.11, which write the flag themselves, the flag is set on the former
and equals "profiling hook present" on the latter. -/
theorem ik_set_trace_on_post (host : Host) (s : Process) (h : PyObject) (excluded : Int)
    (hinit : (trace_init host s.whatstrings).1 = 0) :
    (_ik_set_trace_on host s (some (h, excluded))).1 = some PyObject.Py_None ∧
    (_ik_set_trace_on host s (some (h, excluded))).2.debuggerThreadIdent = excluded ∧
    List.Forall₂
      (fun t t1 =>
        t1.thread_id = t.thread_id ∧
        (¬ ((t.thread_id : Int) % 2 ^ 64 = excluded % 2 ^ 64) →
          t1.c_tracefunc = some Py_tracefunc.trace_trampoline ∧ t1.c_traceobj = some h ∧
          (host.PY_VERSION_HEX < 0x030B00A1 → enabled_flag t1 = true)) ∧
        ((t.thread_id : Int) % 2 ^ 64 = excluded % 2 ^ 64 →
          t1.c_tracefunc = none ∧ t1.c_traceobj = none ∧
          (host.PY_VERSION_HEX < 0x030B00A1 → enabled_flag t1 = t.c_profilefunc.isSome)))
      s.threads (_ik_set_trace_on host s (some (h, excluded))).2.threads := by
  have hne : ¬ ((trace_init host s.whatstrings).1 = -1) := by rw [hinit]; decide
  refine ⟨?_, ?_, ?_⟩
  · simp [_ik_set_trace_on, hne]
  · simp [_ik_set_trace_on, hne, IK_SetTrace_statics]
  simp only [_ik_set_trace_on, hne, if_false]
  have hh := IK_SetTrace_post_hooks host (some Py_tracefunc.trace_trampoline) (some h)
    { s with whatstrings := (trace_init host s.whatstrings).2, debuggerThreadIdent := excluded }
  by_cases hlt : host.PY_VERSION_HEX < 0x030B00A1
  · have hf := IK_SetTrace_post_flag host hlt (some Py_tracefunc.trace_trampoline) (some h)
      { s with whatstrings := (trace_init host s.whatstrings).2,
               debuggerThreadIdent := excluded }
    refine (forall₂_and hh hf).imp ?_
    intro t t1 ⟨⟨ho, hn, hd⟩, hfl⟩
    simp only at hn hd hfl
    refine ⟨ho.1, ?_, ?_⟩
    · intro hx
      exact ⟨(hn hx).1, (hn hx).2, fun _ => by rw [hfl, if_neg hx]; rfl⟩
    · intro hx
      exact ⟨(hd hx).1, (hd hx).2, fun _ => by rw [hfl, if_pos hx]⟩
  · refine hh.imp ?_
    intro t t1 ⟨ho, hn, hd⟩
    simp only at hn hd
    refine ⟨ho.1, ?_, ?_⟩
    · intro hx
      exact ⟨(hn hx).1, (hn hx).2, fun h2 => absurd h2 hlt⟩
    · intro hx
      exact ⟨(hd hx).1, (hd hx).2, fun h2 => absurd h2 hlt⟩

/-! ## The trampoline: helper lemmas -/

theorem call_trampoline_old (host : Host) (hv : ¬ 0x030B00A1 ≤ host.PY_VERSION_HEX)
    (ws : List (Option PyObject)) (callback : PyObject) (frame : PyFrameObject) (what : Nat)
    (arg : Option PyObject) :
    (host.PyFrame_FastToLocalsWithError frame < 0 →
      call_trampoline host ws callback frame what arg
        = (none, [Effect.PyFrame_FastToLocalsWithError frame.addr])) ∧
    (0 ≤ host.PyFrame_FastToLocalsWithError frame →
      call_trampoline host ws callback frame what arg
        = (host._PyObject_FastCall callback (call_trampoline_stack ws frame what arg),
            [Effect.PyFrame_FastToLocalsWithError frame.addr,
             Effect._PyObject_FastCall callback (call_trampoline_stack ws frame what arg),
             Effect.PyFrame_LocalsToFast frame.addr 1]
            ++ (if host._PyObject_FastCall callback (call_trampoline_stack ws frame what arg)
                  = none then [Effect.PyTraceBack_Here frame.addr] else []))) := by
  constructor
  · intro h
    simp [call_trampoline, hv, h]
  · intro h
    have h2 : ¬ host.PyFrame_FastToLocalsWithError frame < 0 := not_lt.mpr h
    simp only [call_trampoline, hv, h2, if_false]

theorem call_trampoline_new (host : Host) (hv : 0x030B00A1 ≤ host.PY_VERSION_HEX)
    (ws : List (Option PyObject)) (callback : PyObject) (frame : PyFrameObject) (what : Nat)
    (arg : Option PyObject) :
    (host.PyFrame_GetLocals frame = none →
      call_trampoline host ws callback frame what arg
        = (none, [Effect.PyFrame_GetLocals frame.addr])) ∧
    (∀ locals, host.PyFrame_GetLocals frame = some locals →
      call_trampoline host ws callback frame what arg
        = (host._PyObject_FastCall callback (call_trampoline_stack ws frame what arg),
            [Effect.PyFrame_GetLocals frame.addr,
             Effect._PyObject_FastCall callback (call_trampoline_stack ws frame what arg),
             Effect.Py_DECREF locals]
            ++ (if host._PyObject_FastCall callback (call_trampoline_stack ws frame what arg)
                  = none then [Effect.PyTraceBack_Here frame.addr] else []))) := by
  constructor
  · intro h
    simp [call_trampoline, hv, h]
  · intro locals h
    simp only [call_trampoline, hv, h, if_true]

theorem call_trampoline_sync_ok (host : Host) (ws : List (Option PyObject))
    (callback : PyObject) (frame : PyFrameObject) (what : Nat) (arg : Option PyObject)
    (hsync : sync_in_ok host frame = true) :
    (call_trampoline host ws callback frame what arg).1
      = host._PyObject_FastCall callback (call_trampoline_stack ws frame what arg) ∧
    calls (call_trampoline host ws callback frame what arg).2
      = [Effect._PyObject_FastCall callback (call_trampoline_stack ws frame what arg)] := by
  unfold sync_in_ok at hsync
  by_cases hv : 0x030B00A1 ≤ host.PY_VERSION_HEX
  · rw [if_pos hv, Option.isSome_iff_exists] at hsync
    obtain ⟨locals, hl⟩ := hsync
    rw [(call_trampoline_new host hv ws callback frame what arg).2 locals hl]
    refine ⟨rfl, ?_⟩
    split_ifs <;> simp [calls, Effect.is_call]
  · rw [if_neg hv, decide_eq_true_iff] at hsync
    rw [(call_trampoline_old host hv ws callback frame what arg).2 hsync]
    refine ⟨rfl, ?_⟩
    split_ifs <;> simp [calls, Effect.is_call]

theorem call_trampoline_sync_fail (host : Host) (ws : List (Option PyObject))
    (callback : PyObject) (frame : PyFrameObject) (what : Nat) (arg : Option PyObject)
    (hsync : sync_in_ok host frame = false) :
    (call_trampoline host ws callback frame what arg).1 = none ∧
    calls (call_trampoline host ws callback frame what arg).2 = [] := by
  unfold sync_in_ok at hsync
  by_cases hv : 0x030B00A1 ≤ host.PY_VERSION_HEX
  · rw [if_pos hv] at hsync
    have hl : host.PyFrame_GetLocals frame = none := by
      cases h : host.PyFrame_GetLocals frame with
      | none => rfl
      | some x => simp [h] at hsync
    rw [(call_trampoline_new host hv ws callback frame what arg).1 hl]
    simp [calls, Effect.is_call]
  · rw [if_neg hv, decide_eq_false_iff_not, not_le] at hsync
    rw [(call_trampoline_old host hv ws callback frame what arg).1 hsync]
    simp [calls, Effect.is_call]

theorem call_trampoline_call_mem (host : Host) (ws : List (Option PyObject))
    (callback : PyObject) (frame : PyFrameObject) (what : Nat) (arg : Option PyObject)
    (cb : PyObject) (stack : List (Option PyObject))
    (hin : Effect._PyObject_FastCall cb stack ∈
      (call_trampoline host ws callback frame what arg).2) :
    cb = callback ∧ stack = call_trampoline_stack ws frame what arg := by
  have hc : Effect._PyObject_FastCall cb stack ∈
      calls (call_trampoline host ws callback frame what arg).2 := by
    unfold calls
    exact List.mem_filter.mpr ⟨hin, rfl⟩
  by_cases hs : sync_in_ok host frame = true
  · rw [(call_trampoline_sync_ok host ws callback frame what arg hs).2] at hc
    simpa using hc
  · simp only [Bool.not_eq_true] at hs
    rw [(call_trampoline_sync_fail host ws callback frame what arg hs).2] at hc
    simp at hc

theorem calls_append (a b : List Effect) : calls (a ++ b) = calls a ++ calls b := by
  simp [calls]

theorem calls_XDECREF (x : Option PyObject) : calls (Py_XDECREF x) = [] := by
  cases x <;> simp [calls, Py_XDECREF, Effect.is_call]

theorem calls_XINCREF (x : Option PyObject) : calls (Py_XINCREF x) = [] := by
  cases x <;> simp [calls, Py_XINCREF, Effect.is_call]

theorem PyEval_SetTrace_effects (host : Host) (func : Option Py_tracefunc)
    (arg : Option PyObject) (s : Process) :
    ∃ es, (PyEval_SetTrace host func arg s).effects = s.effects ++ es ∧ calls es = [] := by
  unfold PyEval_SetTrace
  cases hc : s.threads[s.current]? with
  | none => exact ⟨[], by simp, rfl⟩
  | some tstate =>
    exact ⟨_, rfl, by rw [calls_append, calls_XINCREF, calls_XDECREF]; rfl⟩

/-- The log of `trace_trampoline` when a handler is resolved: the effects of
`call_trampoline` followed by reference-count operations only. -/
theorem trace_trampoline_effects (host : Host) (s : Process) (self : Option PyObject)
    (frame : PyFrameObject) (what : Nat) (arg : Option PyObject) (cb : PyObject)
    (hcb : resolve_callback self frame what = some cb) :
    ∃ es, (trace_trampoline host s self frame what arg).2.2.effects
        = s.effects ++ ((call_trampoline host s.whatstrings cb frame what arg).2 ++ es) ∧
      calls es = [] := by
  unfold trace_trampoline
  rw [hcb]
  simp only
  cases hr : (call_trampoline host s.whatstrings cb frame what arg).1 with
  | none =>
    simp only
    obtain ⟨es, he, hc⟩ := PyEval_SetTrace_effects host none none
      { s with effects := s.effects ++ (call_trampoline host s.whatstrings cb frame what arg).2 }
    refine ⟨es ++ Py_XDECREF frame.f_trace, ?_, ?_⟩
    · rw [he]; simp
    · rw [calls_append, hc, calls_XDECREF]; rfl
  | some r =>
    simp only
    split_ifs
    · exact ⟨Py_XDECREF frame.f_trace, by simp, calls_XDECREF _⟩
    · exact ⟨[Effect.Py_DECREF r], by simp, rfl⟩

theorem trace_trampoline_calls (host : Host) (s : Process) (self : Option PyObject)
    (frame : PyFrameObject) (what : Nat) (arg : Option PyObject) (cb : PyObject)
    (hres : resolve_callback self frame what = some cb) (hs : sync_in_ok host frame = true) :
    calls ((trace_trampoline host s self frame what arg).2.2.effects.drop s.effects.length)
      = [Effect._PyObject_FastCall cb (call_trampoline_stack s.whatstrings frame what arg)] := by
  obtain ⟨es, he, hc⟩ := trace_trampoline_effects host s self frame what arg cb hres
  rw [he, List.drop_left, calls_append, hc,
    (call_trampoline_sync_ok host s.whatstrings cb frame what arg hs).2]
  rfl

theorem trace_trampoline_call_mem (host : Host) (s : Process) (self : Option PyObject)
    (frame : PyFrameObject) (what : Nat) (arg : Option PyObject) (cb : PyObject)
    (stack : List (Option PyObject))
    (hmem : Effect._PyObject_FastCall cb stack ∈
      (trace_trampoline host s self frame what arg).2.2.effects.drop s.effects.length) :
    resolve_callback self frame what = some cb := by
  cases hres : resolve_callback self frame what with
  | none =>
    simp [trace_trampoline, hres] at hmem
  | some cb1 =>
    obtain ⟨es, he, hc⟩ := trace_trampoline_effects host s self frame what arg cb1 hres
    rw [he, List.drop_left] at hmem
    have hin : Effect._PyObject_FastCall cb stack ∈
        calls ((call_trampoline host s.whatstrings cb1 frame what arg).2 ++ es) := by
      unfold calls
      exact List.mem_filter.mpr ⟨hmem, rfl⟩
    rw [calls_append, hc, List.append_nil] at hin
    by_cases hs : sync_in_ok host frame = true
    · rw [(call_trampoline_sync_ok host s.whatstrings cb1 frame what arg hs).2] at hin
      simp at hin
      rw [hin.1]
    · simp only [Bool.not_eq_true] at hs
      rw [(call_trampoline_sync_fail host s.whatstrings cb1 frame what arg hs).2] at hin
      simp at hin

theorem trace_trampoline_some (host : Host) (s : Process) (self : Option PyObject)
    (frame : PyFrameObject) (what : Nat) (arg : Option PyObject) (cb r : PyObject)
    (hcb : resolve_callback self frame what = some cb)
    (hr : (call_trampoline host s.whatstrings cb frame what arg).1 = some r) :
    trace_trampoline host s self frame what arg =
      if r ≠ PyObject.Py_None then
        (0, { frame with f_trace := some r },
          { s with effects := s.effects
              ++ (call_trampoline host s.whatstrings cb frame what arg).2
              ++ Py_XDECREF frame.f_trace })
      else
        (0, frame,
          { s with effects := s.effects
              ++ (call_trampoline host s.whatstrings cb frame what arg).2
              ++ [Effect.Py_DECREF r] }) := by
  unfold trace_trampoline
  rw [hcb]
  simp only [hr]

/-! ## Properties of the hook installer and of the trampoline -/

/-- C1, the code at a failing input.  On a 3.11 build with two idle threads,
`_ik_set_trace_on(tracer, 1)` called from thread 1 returns `None` and leaves
thread 2 with hook `trace_trampoline` and the tracer as hook argument, but with
its enabled flag clear: the last step of the visit, `IK_UseTracing(tstate, 1)`,
calls `PyThreadState_EnterTracing`, which suspends tracing.  The same call on a
3.9 build, where `IK_UseTracing` writes the flag itself, leaves the flag of
thread 2 set. -/
theorem enable_on_311_leaves_flag_clear :
    (_ik_set_trace_on host311 fresh_process (some (PyObject.object 7, 1))).1
      = some PyObject.Py_None ∧
    (_ik_set_trace_on host311 fresh_process (some (PyObject.object 7, 1))).2.threads.map
        hook_view
      = [(1, none, none, none, none, false),
         (2, some Py_tracefunc.trace_trampoline, some (PyObject.object 7), none, none,
           false)] ∧
    (_ik_set_trace_on host39 fresh_process (some (PyObject.object 7, 1))).2.threads.map
        hook_view
      = [(1, none, none, none, none, false),
         (2, some Py_tracefunc.trace_trampoline, some (PyObject.object 7), none, none,
           true)] := by
  exact ⟨rfl, rfl, rfl⟩

/-- C2, as stated, fails: on a 3.9 build the thread states `_ik_set_trace_off()`
leaves do depend on the stored excluded thread id.  With id 1 stored, thread 1
takes one `IK_UseTracing` step and thread 3 two; with id 3 stored it is the
other way round, and the `tracing` counters come out different. -/
theorem disable_depends_on_stored_id :
    (_ik_set_trace_off host39 { traced_process with debuggerThreadIdent := 3 }).2.threads
      ≠ (_ik_set_trace_off host39 traced_process).2.threads ∧
    (_ik_set_trace_off host39 traced_process).2.threads.map (fun t => (t.thread_id, t.tracing))
      = [(1, -1), (2, -2), (3, -2), (4, 2)] ∧
    (_ik_set_trace_off host39
        { traced_process with debuggerThreadIdent := 3 }).2.threads.map
        (fun t => (t.thread_id, t.tracing))
      = [(1, -2), (2, -2), (3, -1), (4, 2)] := by
  decide

/-- C2, amended.  On every build, `_ik_set_trace_off()`, that is
`IK_SetTrace(NULL, NULL)`, returns `None` and leaves every context, the
excluded one included, with its thread id and profiling hook unchanged, hook
NULL and hook argument NULL; on builds below 3.11 its enabled flag equals
"profiling hook present".  The thread id, hook, hook argument and profiling
slot left on every context (and, below 3.11, the flag) are the same for every
stored excluded thread id. -/
theorem ik_set_trace_off_clears (host : Host) (s : Process) :
    (_ik_set_trace_off host s).1 = some PyObject.Py_None ∧
    List.Forall₂
      (fun t t1 =>
        t1.thread_id = t.thread_id ∧ t1.c_profilefunc = t.c_profilefunc ∧
        t1.c_profileobj = t.c_profileobj ∧
        t1.c_tracefunc = none ∧ t1.c_traceobj = none ∧
        (host.PY_VERSION_HEX < 0x030B00A1 → enabled_flag t1 = t.c_profilefunc.isSome))
      s.threads (_ik_set_trace_off host s).2.threads ∧
    (∀ ident : Int,
      (IK_SetTrace host none none { s with debuggerThreadIdent := ident }).threads.map slot_view
        = (_ik_set_trace_off host s).2.threads.map slot_view) ∧
    (host.PY_VERSION_HEX < 0x030B00A1 → ∀ ident : Int,
      (IK_SetTrace host none none { s with debuggerThreadIdent := ident }).threads.map hook_view
        = (_ik_set_trace_off host s).2.threads.map hook_view) := by
  have e : (_ik_set_trace_off host s).2.threads = (IK_SetTrace host none none s).threads :=
    rfl
  refine ⟨rfl, ?_, ?_, ?_⟩
  · rw [e]
    have hh := IK_SetTrace_post_hooks host none none s
    by_cases hlt : host.PY_VERSION_HEX < 0x030B00A1
    · have hf := IK_SetTrace_post_flag host hlt none none s
      refine (forall₂_and hh hf).imp ?_
      intro t t1 ⟨⟨ho, hn, hd⟩, hfl⟩
      by_cases hx : (t.thread_id : Int) % 2 ^ 64 = s.debuggerThreadIdent % 2 ^ 64
      · exact ⟨ho.1, ho.2.1, ho.2.2, (hd hx).1, (hd hx).2,
          fun _ => by rw [hfl, if_pos hx]⟩
      · exact ⟨ho.1, ho.2.1, ho.2.2, (hn hx).1, (hn hx).2,
          fun _ => by rw [hfl, if_neg hx]; rfl⟩
    · refine hh.imp ?_
      intro t t1 ⟨ho, hn, hd⟩
      by_cases hx : (t.thread_id : Int) % 2 ^ 64 = s.debuggerThreadIdent % 2 ^ 64
      · exact ⟨ho.1, ho.2.1, ho.2.2, (hd hx).1, (hd hx).2, fun h2 => absurd h2 hlt⟩
      · exact ⟨ho.1, ho.2.1, ho.2.2, (hn hx).1, (hn hx).2, fun h2 => absurd h2 hlt⟩
  · intro ident
    rw [e, IK_SetTrace_slot_view, IK_SetTrace_slot_view]
    apply List.map_congr_left
    intro t _
    unfold installed_slot_view
    split_ifs <;> rfl
  · intro hlt ident
    rw [e, IK_SetTrace_view host hlt, IK_SetTrace_view host hlt]
    apply List.map_congr_left
    intro t _
    unfold installed_view
    split_ifs <;> simp

/-- Witness for the amended C2: disabling on a 3.9 build where two threads are
traced and another one is profiled, with stored excluded id 1 or 3. -/
theorem ik_set_trace_off_clears_witness :
    host39.PY_VERSION_HEX < 0x030B00A1 ∧
    (_ik_set_trace_off host39 traced_process).1 = some PyObject.Py_None ∧
    (_ik_set_trace_off host39 traced_process).2.threads.map hook_view
      = [(1, none, none, none, none, false), (2, none, none, none, none, false),
         (3, none, none, none, none, false),
         (4, none, none, some (Py_tracefunc.foreign 500), some (PyObject.object 501), true)] ∧
    (IK_SetTrace host39 none none
      { traced_process with debuggerThreadIdent := 3 }).threads.map hook_view
      = (_ik_set_trace_off host39 traced_process).2.threads.map hook_view := by
  refine ⟨by decide,
    (ik_set_trace_off_clears host39 traced_process).1, rfl,
    (ik_set_trace_off_clears host39 traced_process).2.2.2 (by decide) 3⟩

/-- C3, as stated, fails: on a 3.9 build where threads 2 and 3 are traced and
thread 2 dispatches a line event whose handler returns NULL,
`trace_trampoline` returns -1 and clears the hook of thread 2 only; thread 3
still has `trace_trampoline` installed. -/
theorem handler_failure_leaves_other_hooks :
    resolve_callback none sample_frame 2 = some (PyObject.object 7) ∧
    host39_raise._PyObject_FastCall (PyObject.object 7)
      (call_trampoline_stack dispatching_process.whatstrings sample_frame 2 none) = none ∧
    (trace_trampoline host39_raise dispatching_process none sample_frame 2 none).1 = -1 ∧
    (trace_trampoline host39_raise dispatching_process none sample_frame 2
      none).2.2.threads.map (fun t => (t.thread_id, t.c_tracefunc))
      = [(1, none), (2, none), (3, some Py_tracefunc.trace_trampoline), (4, none)] := by
  refine ⟨rfl, rfl, rfl, ?_⟩
  decide

/-- C3, amended. When the resolved handler returns NULL for an event (or
sync-in fails, which `call_trampoline` reports the same way),
`trace_trampoline` returns -1, clears the frame's `f_trace` and calls
`PyEval_SetTrace(NULL, NULL)`, which clears the hook and hook argument of the
calling context only: every other context is left exactly as it was. -/
theorem trace_trampoline_handler_failure (host : Host) (s : Process)
    (self : Option PyObject) (frame : PyFrameObject) (what : Nat) (arg : Option PyObject)
    (cb : PyObject) (hcb : resolve_callback self frame what = some cb)
    (hnull : (call_trampoline host s.whatstrings cb frame what arg).1 = none) :
    (trace_trampoline host s self frame what arg).1 = -1 ∧
    (trace_trampoline host s self frame what arg).2.1 = { frame with f_trace := none } ∧
    (trace_trampoline host s self frame what arg).2.2.threads.length = s.threads.length ∧
    (∀ i, i ≠ s.current →
      (trace_trampoline host s self frame what arg).2.2.threads[i]? = s.threads[i]?) ∧
    (∀ t, (trace_trampoline host s self frame what arg).2.2.threads[s.current]? = some t →
      t.c_tracefunc = none ∧ t.c_traceobj = none) := by
  have ht : trace_trampoline host s self frame what arg =
      (-1, { frame with f_trace := none },
        { PyEval_SetTrace host none none
            { s with effects := s.effects
                ++ (call_trampoline host s.whatstrings cb frame what arg).2 } with
          effects := (PyEval_SetTrace host none none
            { s with effects := s.effects
                ++ (call_trampoline host s.whatstrings cb frame what arg).2 }).effects
              ++ Py_XDECREF frame.f_trace }) := by
    unfold trace_trampoline
    rw [hcb]
    simp only [hnull]
  rw [ht]
  refine ⟨rfl, rfl, ?_, ?_, ?_⟩
  · exact (PyEval_SetTrace_threads host none none
      { s with effects := s.effects
          ++ (call_trampoline host s.whatstrings cb frame what arg).2 }).length_eq.symm
  · intro i hi
    exact PyEval_SetTrace_others host none none
      { s with effects := s.effects
          ++ (call_trampoline host s.whatstrings cb frame what arg).2 } i hi
  · intro t h
    exact PyEval_SetTrace_current host none none
      { s with effects := s.effects
          ++ (call_trampoline host s.whatstrings cb frame what arg).2 } t h

/-- Witness for the amended C3: the line event of `dispatching_process` on a
3.9 build whose handler raises; thread 2 (position 1) dispatches, thread 3
(position 2) is untouched. -/
theorem trace_trampoline_handler_failure_witness :
    resolve_callback none sample_frame 2 = some (PyObject.object 7) ∧
    (call_trampoline host39_raise dispatching_process.whatstrings (PyObject.object 7)
      sample_frame 2 none).1 = none ∧
    (trace_trampoline host39_raise dispatching_process none sample_frame 2 none).1 = -1 ∧
    (trace_trampoline host39_raise dispatching_process none sample_frame 2 none).2.1
      = { sample_frame with f_trace := none } ∧
    (trace_trampoline host39_raise dispatching_process none sample_frame 2
      none).2.2.threads.length = dispatching_process.threads.length ∧
    (trace_trampoline host39_raise dispatching_process none sample_frame 2
      none).2.2.threads[2]? = dispatching_process.threads[2]? :=
  ⟨rfl, rfl,
    (trace_trampoline_handler_failure host39_raise dispatching_process none sample_frame 2 none
      (PyObject.object 7) rfl rfl).1,
    (trace_trampoline_handler_failure host39_raise dispatching_process none sample_frame 2 none
      (PyObject.object 7) rfl rfl).2.1,
    (trace_trampoline_handler_failure host39_raise dispatching_process none sample_frame 2 none
      (PyObject.object 7) rfl rfl).2.2.1,
    (trace_trampoline_handler_failure host39_raise dispatching_process none sample_frame 2 none
      (PyObject.object 7) rfl rfl).2.2.2.1 2 (by decide)⟩

/-- C4. For every frame and every event whose resolved handler is non-NULL
(sync-in succeeding): if the handler returns a value that is neither NULL nor
`Py_None`, `trace_trampoline` returns 0, the frame's `f_trace` becomes exactly
that value, nothing else in the frame changes, and after the effects of
`call_trampoline` the old `f_trace` is released once (no release when it was
NULL) and the new value is not acquired again; if the handler returns
`Py_None`, `trace_trampoline` returns 0, the frame is unchanged and the
`Py_None` result is released.  No thread state is written in either case.
Consequently, once a handler has returned such a value `r` (for instance the
global handler on a call event), the next non-call event on that frame
invokes `r` and nothing else. -/
theorem trace_trampoline_override (host : Host) (s : Process) (self : Option PyObject)
    (frame : PyFrameObject) (what : Nat) (arg : Option PyObject) (cb r : PyObject)
    (hcb : resolve_callback self frame what = some cb)
    (hsync : sync_in_ok host frame = true)
    (hr : host._PyObject_FastCall cb (call_trampoline_stack s.whatstrings frame what arg)
      = some r) :
    (trace_trampoline host s self frame what arg).1 = 0 ∧
    (trace_trampoline host s self frame what arg).2.2.threads = s.threads ∧
    (r ≠ PyObject.Py_None →
      (trace_trampoline host s self frame what arg).2.1 = { frame with f_trace := some r } ∧
      (trace_trampoline host s self frame what arg).2.2.effects
        = s.effects ++ (call_trampoline host s.whatstrings cb frame what arg).2
          ++ Py_XDECREF frame.f_trace) ∧
    (r = PyObject.Py_None →
      (trace_trampoline host s self frame what arg).2.1 = frame ∧
      (trace_trampoline host s self frame what arg).2.2.effects
        = s.effects ++ (call_trampoline host s.whatstrings cb frame what arg).2
          ++ [Effect.Py_DECREF PyObject.Py_None]) ∧
    (r ≠ PyObject.Py_None →
      ∀ (host2 : Host) (s2 : Process) (self2 : Option PyObject) (what2 : Nat)
        (arg2 : Option PyObject),
        what2 ≠ PyTrace_CALL →
        sync_in_ok host2 (trace_trampoline host s self frame what arg).2.1 = true →
        calls ((trace_trampoline host2 s2 self2
            (trace_trampoline host s self frame what arg).2.1 what2 arg2).2.2.effects.drop
              s2.effects.length)
          = [Effect._PyObject_FastCall r
              (call_trampoline_stack s2.whatstrings
                (trace_trampoline host s self frame what arg).2.1 what2 arg2)]) := by
  have hres : (call_trampoline host s.whatstrings cb frame what arg).1 = some r := by
    rw [(call_trampoline_sync_ok host s.whatstrings cb frame what arg hsync).1, hr]
  have ht := trace_trampoline_some host s self frame what arg cb r hcb hres
  by_cases hnone : r = PyObject.Py_None
  · rw [if_neg (not_not.mpr hnone)] at ht
    rw [ht]
    refine ⟨rfl, rfl, fun h => absurd hnone h, fun _ => ⟨rfl, by rw [hnone]⟩,
      fun h => absurd hnone h⟩
  · rw [if_pos hnone] at ht
    rw [ht]
    refine ⟨rfl, rfl, fun _ => ⟨rfl, rfl⟩, fun h => absurd h hnone, ?_⟩
    intro _ host2 s2 self2 what2 arg2 hw hs2
    have hres2 : resolve_callback self2 { frame with f_trace := some r } what2 = some r := by
      simp [resolve_callback, hw]
    exact trace_trampoline_calls host2 s2 self2 { frame with f_trace := some r } what2 arg2 r
      hres2 hs2

/-- Witness for C4: on a 3.12 build the global handler (object 7) returns
object 77 on a call event; the frame's `f_trace` becomes object 77 and the
next line event invokes object 77. -/
theorem trace_trampoline_override_witness :
    resolve_callback (some (PyObject.object 7)) sample_frame 0 = some (PyObject.object 7) ∧
    sync_in_ok host312 sample_frame = true ∧
    host312._PyObject_FastCall (PyObject.object 7)
      (call_trampoline_stack traced_process.whatstrings sample_frame 0 none)
      = some (PyObject.object 77) ∧
    (trace_trampoline host312 traced_process (some (PyObject.object 7)) sample_frame 0
      none).1 = 0 ∧
    (trace_trampoline host312 traced_process (some (PyObject.object 7)) sample_frame 0
      none).2.1 = { sample_frame with f_trace := some (PyObject.object 77) } ∧
    (trace_trampoline host312 traced_process (some (PyObject.object 7)) sample_frame 0
      none).2.2.effects
      = traced_process.effects
        ++ (call_trampoline host312 traced_process.whatstrings (PyObject.object 7) sample_frame
          0 none).2
        ++ Py_XDECREF sample_frame.f_trace :=
  ⟨rfl, by decide, rfl,
    (trace_trampoline_override host312 traced_process (some (PyObject.object 7)) sample_frame 0
      none (PyObject.object 7) (PyObject.object 77) rfl (by decide) rfl).1,
    (trace_trampoline_override host312 traced_process (some (PyObject.object 7)) sample_frame 0
      none (PyObject.object 7) (PyObject.object 77) rfl (by decide) rfl).2.2.1 (by decide)⟩

/-- C5. For every invocation `trace_trampoline(self, frame, what, arg)`: the
handler resolved is `self` on a call event and the frame's `f_trace` on every
other event; any callable invoked during the invocation is that resolved
handler, and it is invoked exactly once when sync-in succeeds; and when the
resolved handler is NULL the result is 0 and the frame and the whole process
state, effect log included, are returned unchanged: no handler call, no
sync-in, no sync-out, no context written. -/
theorem trace_trampoline_resolves (host : Host) (s : Process) (self : Option PyObject)
    (frame : PyFrameObject) (what : Nat) (arg : Option PyObject) :
    (what = PyTrace_CALL → resolve_callback self frame what = self) ∧
    (what ≠ PyTrace_CALL → resolve_callback self frame what = frame.f_trace) ∧
    (∀ cb stack, Effect._PyObject_FastCall cb stack ∈
        (trace_trampoline host s self frame what arg).2.2.effects.drop s.effects.length →
      resolve_callback self frame what = some cb) ∧
    (∀ cb, resolve_callback self frame what = some cb → sync_in_ok host frame = true →
      calls ((trace_trampoline host s self frame what arg).2.2.effects.drop s.effects.length)
        = [Effect._PyObject_FastCall cb
            (call_trampoline_stack s.whatstrings frame what arg)]) ∧
    (resolve_callback self frame what = none →
      trace_trampoline host s self frame what arg = (0, frame, s)) := by
  refine ⟨?_, ?_, ?_, ?_, ?_⟩
  · intro h
    simp [resolve_callback, h]
  · intro h
    simp [resolve_callback, h]
  · intro cb stack hmem
    exact trace_trampoline_call_mem host s self frame what arg cb stack hmem
  · intro cb hres hs
    exact trace_trampoline_calls host s self frame what arg cb hres hs
  · intro h
    simp [trace_trampoline, h]

/-- Witness for C5: a line event on a frame without `f_trace` is dropped; a
call event goes to `self`. -/
theorem trace_trampoline_resolves_witness :
    trace_trampoline host39 traced_process (some (PyObject.object 7))
        { sample_frame with f_trace := none } 2 none
      = (0, { sample_frame with f_trace := none }, traced_process) ∧
    calls ((trace_trampoline host39 traced_process (some (PyObject.object 7))
        { sample_frame with f_trace := none } 0 none).2.2.effects.drop
          traced_process.effects.length)
      = [Effect._PyObject_FastCall (PyObject.object 7)
          (call_trampoline_stack traced_process.whatstrings
            { sample_frame with f_trace := none } 0 none)] :=
  ⟨(trace_trampoline_resolves host39 traced_process (some (PyObject.object 7))
      { sample_frame with f_trace := none } 2 none).2.2.2.2 rfl,
    (trace_trampoline_resolves host39 traced_process (some (PyObject.object 7))
      { sample_frame with f_trace := none } 0 none).2.2.2.1 (PyObject.object 7) rfl
        (by decide)⟩

/-- C6, as stated, fails: on a 3.9 build with two idle threads, disabling
twice leaves thread states that differ from those left by disabling once
(the `tracing` counter moved by `IK_UseTracing` goes from -2 to -4). -/
theorem disable_twice_differs :
    (_ik_set_trace_off host39 (_ik_set_trace_off host39 fresh_process).2).2.threads
      ≠ (_ik_set_trace_off host39 fresh_process).2.threads ∧
    (_ik_set_trace_off host39 fresh_process).2.threads.map (fun t => t.tracing) = [-2, -2] ∧
    (_ik_set_trace_off host39 (_ik_set_trace_off host39 fresh_process).2).2.threads.map
      (fun t => t.tracing) = [-4, -4] := by
  decide

/-- C6, amended.  Calling `_ik_set_trace_off()` twice in a row, or
`_ik_set_trace_on(h, t)` twice in a row with the same arguments (the second
call succeeds as the first did), leaves on every context, on every build, the
same thread id, event hook, hook argument and profiling hook as calling it
once, and on builds below 3.11 also the same enabled flag. -/
theorem entry_points_twice_same_view (host : Host) (s : Process) :
    (_ik_set_trace_off host (_ik_set_trace_off host s).2).2.threads.map slot_view
      = (_ik_set_trace_off host s).2.threads.map slot_view ∧
    (host.PY_VERSION_HEX < 0x030B00A1 →
      (_ik_set_trace_off host (_ik_set_trace_off host s).2).2.threads.map hook_view
        = (_ik_set_trace_off host s).2.threads.map hook_view) ∧
    ∀ (h : PyObject) (t : Int), whatstrings_ok s.whatstrings →
      (trace_init host s.whatstrings).1 = 0 →
      (_ik_set_trace_on host (_ik_set_trace_on host s (some (h, t))).2 (some (h, t))).1
        = some PyObject.Py_None ∧
      (_ik_set_trace_on host (_ik_set_trace_on host s (some (h, t))).2
          (some (h, t))).2.threads.map slot_view
        = (_ik_set_trace_on host s (some (h, t))).2.threads.map slot_view ∧
      (host.PY_VERSION_HEX < 0x030B00A1 →
        (_ik_set_trace_on host (_ik_set_trace_on host s (some (h, t))).2
            (some (h, t))).2.threads.map hook_view
          = (_ik_set_trace_on host s (some (h, t))).2.threads.map hook_view) := by
  have e : ∀ s1 : Process, (_ik_set_trace_off host s1).2.threads
      = (IK_SetTrace host none none s1).threads := fun _ => rfl
  have e2 : (_ik_set_trace_off host s).2.debuggerThreadIdent = s.debuggerThreadIdent :=
    (IK_SetTrace_statics host none none s).1
  refine ⟨?_, ?_, ?_⟩
  · rw [e, IK_SetTrace_slot_view, e2, e, IK_SetTrace_slot_view]
    exact installed_slot_view_congr none none s.debuggerThreadIdent
      (IK_SetTrace_same_owner host none none s)
  · intro hlt
    rw [e, IK_SetTrace_view host hlt, e2, e, IK_SetTrace_view host hlt]
    exact installed_view_congr none none s.debuggerThreadIdent
      (IK_SetTrace_same_owner host none none s)
  · intro h t hws hinit
    obtain ⟨_, hw1, ho1, hs1, hv1⟩ := ik_set_trace_on_view host s h t hinit
    have hinit2 : (trace_init host
        (_ik_set_trace_on host s (some (h, t))).2.whatstrings).1 = 0 := by
      rw [hw1, trace_init_fills host s.whatstrings hws hinit, trace_init_filled]
    obtain ⟨hr2, _, _, hs2, hv2⟩ := ik_set_trace_on_view host
      (_ik_set_trace_on host s (some (h, t))).2 h t hinit2
    refine ⟨hr2, ?_, ?_⟩
    · rw [hs2, hs1]
      exact installed_slot_view_congr _ _ t ho1
    · intro hlt
      rw [hv2 hlt, hv1 hlt]
      exact installed_view_congr _ _ t ho1

/-- Witness for the amended C6: enabling twice on a 3.9 build (hooks and
flag) and on a 3.11 build (hooks). -/
theorem entry_points_twice_same_view_witness :
    whatstrings_ok fresh_process.whatstrings ∧
    (trace_init host39 fresh_process.whatstrings).1 = 0 ∧
    (trace_init host311 fresh_process.whatstrings).1 = 0 ∧
    host39.PY_VERSION_HEX < 0x030B00A1 ∧
    (_ik_set_trace_on host39
        (_ik_set_trace_on host39 fresh_process (some (PyObject.object 7, 1))).2
        (some (PyObject.object 7, 1))).2.threads.map hook_view
      = (_ik_set_trace_on host39 fresh_process
          (some (PyObject.object 7, 1))).2.threads.map hook_view ∧
    (_ik_set_trace_on host311
        (_ik_set_trace_on host311 fresh_process (some (PyObject.object 7, 1))).2
        (some (PyObject.object 7, 1))).2.threads.map slot_view
      = (_ik_set_trace_on host311 fresh_process
          (some (PyObject.object 7, 1))).2.threads.map slot_view :=
  ⟨whatstrings_initial_ok, by decide, by decide, by decide,
    ((entry_points_twice_same_view host39 fresh_process).2.2
      (PyObject.object 7) 1 whatstrings_initial_ok (by decide)).2.2 (by decide),
    ((entry_points_twice_same_view host311 fresh_process).2.2
      (PyObject.object 7) 1 whatstrings_initial_ok (by decide)).2.1⟩

/-- C7. Reference-count balance of `IK_SetTrace(func, arg)`, registration on
the calling context included.  A visit of a non-excluded context performs
exactly one acquire of `arg` followed by one release of that context's
previous argument; a visit of the excluded context performs exactly one
release of its previous argument and no acquire; the registration performs
one acquire of `arg` followed by one release of the calling context's
previous argument; the log of the call is the registration followed by the
visits in list order.  For every object the ownership count therefore
changes by the number of slots holding it after the call minus the number
holding it before.  In a non-excluded visit the acquire comes first, so at
no point of the visit is the count of `arg` below its value at the start of
the visit. -/
theorem IK_SetTrace_refcount_balance (host : Host) (func : Option Py_tracefunc)
    (arg : Option PyObject) (s : Process) :
    (∀ t, is_debugger_thread t.thread_id s.debuggerThreadIdent = false →
      (IK_SetTrace_visit host func arg s.debuggerThreadIdent t).2
        = Py_XINCREF arg ++ Py_XDECREF t.c_traceobj) ∧
    (∀ t, is_debugger_thread t.thread_id s.debuggerThreadIdent = true →
      (IK_SetTrace_visit host func arg s.debuggerThreadIdent t).2
        = Py_XDECREF t.c_traceobj) ∧
    (∀ t, s.threads[s.current]? = some t →
      (PyEval_SetTrace host func arg s).effects
        = s.effects ++ (Py_XINCREF arg ++ Py_XDECREF t.c_traceobj)) ∧
    (IK_SetTrace host func arg s).effects
      = (PyEval_SetTrace host func arg s).effects ++
        ((PyEval_SetTrace host func arg s).threads.map
          (fun t => (IK_SetTrace_visit host func arg s.debuggerThreadIdent t).2)).flatten ∧
    (∀ (rc : PyObject → Int) (o : PyObject),
      ob_refcnt rc ((IK_SetTrace host func arg s).effects.drop s.effects.length) o
        = rc o + slots o (IK_SetTrace host func arg s).threads - slots o s.threads) ∧
    (∀ t a n, arg = some a →
      is_debugger_thread t.thread_id s.debuggerThreadIdent = false →
      0 ≤ refDelta a ((IK_SetTrace_visit host func arg s.debuggerThreadIdent t).2.take n)) := by
  refine ⟨?_, ?_, ?_, ?_, ?_, ?_⟩
  · intro t hx
    exact ((IK_SetTrace_visit_fields host func arg _ t).2.1 hx).2.2
  · intro t hx
    exact ((IK_SetTrace_visit_fields host func arg _ t).2.2 hx).2.2
  · intro t ht
    simp [PyEval_SetTrace, ht]
  · simp [IK_SetTrace, IK_SetTrace_loop_snd, PyEval_SetTrace_statics]
  · intro rc o
    obtain ⟨es, he, hb⟩ := PyEval_SetTrace_balance host func arg s o
    have hl := IK_SetTrace_loop_balance host func arg
      (PyEval_SetTrace host func arg s).debuggerThreadIdent
      (PyEval_SetTrace host func arg s).threads o
    have e : (IK_SetTrace host func arg s).effects
        = s.effects ++ (es ++ (IK_SetTrace_loop host func arg
            (PyEval_SetTrace host func arg s).debuggerThreadIdent
            (PyEval_SetTrace host func arg s).threads).2) := by
      simp [IK_SetTrace, he]
    have e2 : (IK_SetTrace host func arg s).threads
        = (IK_SetTrace_loop host func arg
            (PyEval_SetTrace host func arg s).debuggerThreadIdent
            (PyEval_SetTrace host func arg s).threads).1 := rfl
    rw [e, List.drop_left, e2]
    unfold ob_refcnt
    rw [refDelta_append, hb, hl]
    ring
  · intro t a n ha hx
    rw [((IK_SetTrace_visit_fields host func arg _ t).2.1 hx).2.2, ha]
    cases hp : t.c_traceobj with
    | none =>
      rcases n with _ | n
      · simp [refDelta]
      · simp [Py_XINCREF, Py_XDECREF, refDelta, Effect.delta]
    | some p =>
      rcases n with _ | _ | n
      · simp [refDelta]
      · simp [Py_XINCREF, Py_XDECREF, refDelta, Effect.delta]
      · by_cases hpa : p = a <;> simp [Py_XINCREF, Py_XDECREF, refDelta, Effect.delta, hpa]

/-- Witness for C7: disabling a process in which two threads hold the tracer
object releases it exactly twice. -/
theorem IK_SetTrace_refcount_balance_witness :
    ob_refcnt (fun _ => 5)
      ((IK_SetTrace host39 none none traced_process).effects.drop
        traced_process.effects.length) (PyObject.object 7) = 3 := by
  have h := (IK_SetTrace_refcount_balance host39 none none traced_process).2.2.2.2.1
    (fun _ => 5) (PyObject.object 7)
  rw [h]
  decide

/-- C8. Frame property of `IK_SetTrace`: for every list of contexts and every
`func`, `arg` and stored excluded id, the number and order of contexts, each
context's thread identifier and each context's profiling hook (function and
argument) are unchanged, as are the module's statics and the position of the
calling thread; the walk writes only the hook function, the hook argument and
the tracing flag and counter. -/
theorem IK_SetTrace_frame (host : Host) (func : Option Py_tracefunc)
    (arg : Option PyObject) (s : Process) :
    (IK_SetTrace host func arg s).threads.length = s.threads.length ∧
    List.Forall₂
      (fun t t1 =>
        t1.thread_id = t.thread_id ∧ t1.c_profilefunc = t.c_profilefunc ∧
        t1.c_profileobj = t.c_profileobj)
      s.threads (IK_SetTrace host func arg s).threads ∧
    (IK_SetTrace host func arg s).debuggerThreadIdent = s.debuggerThreadIdent ∧
    (IK_SetTrace host func arg s).whatstrings = s.whatstrings ∧
    (IK_SetTrace host func arg s).current = s.current :=
  ⟨(IK_SetTrace_same_owner host func arg s).length_eq.symm,
    IK_SetTrace_same_owner host func arg s, IK_SetTrace_statics host func arg s⟩

/-- C9. After a successful `trace_init` (on a table each of whose seven slots
is NULL or already holds its interned name), `whatstrings[i]` is the interned
string for `whatnames[i]` for each of the seven entries.  For every event kind
`what` in 0..6 (an index within the seven entries), every callback, frame and
payload, whenever `call_trampoline` invokes a callable it is the callback,
with exactly three positional values: the frame, the interned string for
`whatnames[what]`, and `arg`, or `Py_None` when `arg` is NULL; when sync-in
succeeds that invocation happens exactly once.  The seven names are pairwise
distinct and looking the token up in the table gives back `what`. -/
theorem call_trampoline_token (host : Host) (ws : List (Option PyObject))
    (hws : whatstrings_ok ws) (hinit : (trace_init host ws).1 = 0)
    (callback : PyObject) (frame : PyFrameObject) (what : Nat) (arg : Option PyObject)
    (hwhat : what < 7) :
    (trace_init host ws).2 = whatnames.map (fun n => some (PyObject.unicode n)) ∧
    whatnames.length = 7 ∧ whatnames.Nodup ∧
    ∃ name, whatnames[what]? = some name ∧
      (∀ cb stack, Effect._PyObject_FastCall cb stack ∈
          (call_trampoline host (trace_init host ws).2 callback frame what arg).2 →
        cb = callback ∧
        stack = [some (PyObject.object frame.addr), some (PyObject.unicode name),
          some (arg.getD PyObject.Py_None)]) ∧
      (sync_in_ok host frame = true →
        calls (call_trampoline host (trace_init host ws).2 callback frame what arg).2
          = [Effect._PyObject_FastCall callback
              [some (PyObject.object frame.addr), some (PyObject.unicode name),
               some (arg.getD PyObject.Py_None)]]) ∧
      [some (PyObject.object frame.addr), some (PyObject.unicode name),
        some (arg.getD PyObject.Py_None)].length = 3 ∧
      List.indexOf (some (PyObject.unicode name)) (trace_init host ws).2 = what ∧
      List.indexOf name whatnames = what := by
  have hfill := trace_init_fills host ws hws hinit
  refine ⟨hfill, rfl, by decide, ?_⟩
  rw [hfill]
  have hstack : ∀ name, whatstrings_filled.getD what none = some (PyObject.unicode name) →
      call_trampoline_stack whatstrings_filled frame what arg
        = [some (PyObject.object frame.addr), some (PyObject.unicode name),
            some (arg.getD PyObject.Py_None)] := by
    intro name hn
    unfold call_trampoline_stack
    rw [hn]
    cases arg <;> rfl
  have hmem : ∀ name, whatstrings_filled.getD what none = some (PyObject.unicode name) →
      ∀ cb stack, Effect._PyObject_FastCall cb stack ∈
          (call_trampoline host whatstrings_filled callback frame what arg).2 →
        cb = callback ∧
        stack = [some (PyObject.object frame.addr), some (PyObject.unicode name),
          some (arg.getD PyObject.Py_None)] := by
    intro name hn cb stack hin
    rw [← hstack name hn]
    exact call_trampoline_call_mem host whatstrings_filled callback frame what arg cb stack hin
  have hc : ∀ name, whatstrings_filled.getD what none = some (PyObject.unicode name) →
      sync_in_ok host frame = true →
      calls (call_trampoline host whatstrings_filled callback frame what arg).2
        = [Effect._PyObject_FastCall callback
            [some (PyObject.object frame.addr), some (PyObject.unicode name),
             some (arg.getD PyObject.Py_None)]] := by
    intro name hn hsync
    rw [(call_trampoline_sync_ok host whatstrings_filled callback frame what arg hsync).2,
      hstack name hn]
  interval_cases what
  · exact ⟨"call", rfl, hmem _ rfl, hc _ rfl, rfl, by decide, by decide⟩
  · exact ⟨"exception", rfl, hmem _ rfl, hc _ rfl, rfl, by decide, by decide⟩
  · exact ⟨"line", rfl, hmem _ rfl, hc _ rfl, rfl, by decide, by decide⟩
  · exact ⟨"return", rfl, hmem _ rfl, hc _ rfl, rfl, by decide, by decide⟩
  · exact ⟨"c_call", rfl, hmem _ rfl, hc _ rfl, rfl, by decide, by decide⟩
  · exact ⟨"c_exception", rfl, hmem _ rfl, hc _ rfl, rfl, by decide, by decide⟩
  · exact ⟨"c_return", rfl, hmem _ rfl, hc _ rfl, rfl, by decide, by decide⟩

/-- Witness for C9: a `return` event with a payload on a 3.9 build, after the
first `trace_init`. -/
theorem call_trampoline_token_witness :
    whatstrings_ok whatstrings_initial ∧ (trace_init host39 whatstrings_initial).1 = 0 ∧
    (3 : Nat) < 7 ∧ sync_in_ok host39 sample_frame = true ∧
    calls (call_trampoline host39 (trace_init host39 whatstrings_initial).2 (PyObject.object 7)
        sample_frame 3 (some (PyObject.object 8))).2
      = [Effect._PyObject_FastCall (PyObject.object 7)
          [some (PyObject.object 100), some (PyObject.unicode "return"),
           some (PyObject.object 8)]] := by
  refine ⟨whatstrings_initial_ok, by decide, by decide, by decide, ?_⟩
  obtain ⟨_, _, _, name, hn, _, hc, _⟩ :=
    call_trampoline_token host39 whatstrings_initial whatstrings_initial_ok (by decide)
      (PyObject.object 7) sample_frame 3 (some (PyObject.object 8)) (by decide)
  have : name = "return" := by
    have h2 : whatnames[3]? = some "return" := rfl
    rw [h2] at hn
    exact (Option.some.inj hn).symm
  subst this
  exact hc (by decide)

/-- C10, as stated, fails: on a 3.9 build, with sync-in succeeding and the
handler returning NULL, `call_trampoline` returns NULL and still performs the
sync-out `PyFrame_LocalsToFast(frame, 1)`. -/
theorem sync_out_after_failed_handler :
    sync_in_ok host39_raise sample_frame = true ∧
    host39_raise._PyObject_FastCall (PyObject.object 7)
      (call_trampoline_stack whatstrings_filled sample_frame 2 none) = none ∧
    (call_trampoline host39_raise whatstrings_filled (PyObject.object 7) sample_frame 2 none).1
      = none ∧
    Effect.PyFrame_LocalsToFast sample_frame.addr 1 ∈
      (call_trampoline host39_raise whatstrings_filled (PyObject.object 7) sample_frame 2
        none).2 := by
  refine ⟨by decide, rfl, rfl, ?_⟩
  simp [call_trampoline, host39_raise, host39]

/-- C10, amended. In `call_trampoline` sync-in is always attempted first.  If
it fails, the handler is not invoked, no sync-out is performed and NULL is
returned.  If it succeeds, the handler is invoked exactly once and its result
is returned; afterwards, on builds below 3.11, the sync-out
`PyFrame_LocalsToFast(frame, 1)` is performed whether the handler returned a
value or NULL, and on 3.11+ builds no sync-out is performed and the locals
reference is released instead; a traceback entry is added exactly when the
handler returned NULL. -/
theorem call_trampoline_effects (host : Host) (ws : List (Option PyObject))
    (callback : PyObject) (frame : PyFrameObject) (what : Nat) (arg : Option PyObject) :
    (host.PY_VERSION_HEX < 0x030B00A1 →
      (host.PyFrame_FastToLocalsWithError frame < 0 →
        call_trampoline host ws callback frame what arg
          = (none, [Effect.PyFrame_FastToLocalsWithError frame.addr])) ∧
      (0 ≤ host.PyFrame_FastToLocalsWithError frame →
        call_trampoline host ws callback frame what arg
          = (host._PyObject_FastCall callback (call_trampoline_stack ws frame what arg),
              [Effect.PyFrame_FastToLocalsWithError frame.addr,
               Effect._PyObject_FastCall callback (call_trampoline_stack ws frame what arg),
               Effect.PyFrame_LocalsToFast frame.addr 1]
              ++ (if host._PyObject_FastCall callback (call_trampoline_stack ws frame what arg)
                    = none then [Effect.PyTraceBack_Here frame.addr] else [])))) ∧
    (0x030B00A1 ≤ host.PY_VERSION_HEX →
      (host.PyFrame_GetLocals frame = none →
        call_trampoline host ws callback frame what arg
          = (none, [Effect.PyFrame_GetLocals frame.addr])) ∧
      (∀ locals, host.PyFrame_GetLocals frame = some locals →
        call_trampoline host ws callback frame what arg
          = (host._PyObject_FastCall callback (call_trampoline_stack ws frame what arg),
              [Effect.PyFrame_GetLocals frame.addr,
               Effect._PyObject_FastCall callback (call_trampoline_stack ws frame what arg),
               Effect.Py_DECREF locals]
              ++ (if host._PyObject_FastCall callback (call_trampoline_stack ws frame what arg)
                    = none then [Effect.PyTraceBack_Here frame.addr] else [])))) ∧
    (∀ clear, Effect.PyFrame_LocalsToFast frame.addr clear ∈
        (call_trampoline host ws callback frame what arg).2 ↔
      (clear = 1 ∧ host.PY_VERSION_HEX < 0x030B00A1 ∧ sync_in_ok host frame = true)) := by
  refine ⟨?_, ?_, ?_⟩
  · intro hv
    exact call_trampoline_old host (not_le.mpr hv) ws callback frame what arg
  · intro hv
    exact call_trampoline_new host hv ws callback frame what arg
  · intro clear
    by_cases hv : 0x030B00A1 ≤ host.PY_VERSION_HEX
    · have hnv : ¬ host.PY_VERSION_HEX < 0x030B00A1 := not_lt.mpr hv
      cases hl : host.PyFrame_GetLocals frame with
      | none =>
        rw [(call_trampoline_new host hv ws callback frame what arg).1 hl]
        simp [hnv]
      | some locals =>
        rw [(call_trampoline_new host hv ws callback frame what arg).2 locals hl]
        split_ifs <;> simp [hnv]
    · have hlt : host.PY_VERSION_HEX < 0x030B00A1 := not_le.mp hv
      by_cases hs : host.PyFrame_FastToLocalsWithError frame < 0
      · rw [(call_trampoline_old host hv ws callback frame what arg).1 hs]
        simp [sync_in_ok, hv, hs]
      · rw [(call_trampoline_old host hv ws callback frame what arg).2 (not_lt.mp hs)]
        split_ifs <;> simp [sync_in_ok, hv, hlt, not_lt.mp hs, eq_comm]

/-- Witness for the amended C10: a 3.9 build whose handler raises. -/
theorem call_trampoline_effects_witness :
    host39_raise.PY_VERSION_HEX < 0x030B00A1 ∧
    0 ≤ host39_raise.PyFrame_FastToLocalsWithError sample_frame ∧
    call_trampoline host39_raise whatstrings_filled (PyObject.object 7) sample_frame 2 none
      = (none,
          [Effect.PyFrame_FastToLocalsWithError 100,
           Effect._PyObject_FastCall (PyObject.object 7)
             [some (PyObject.object 100), some (PyObject.unicode "line"),
              some PyObject.Py_None],
           Effect.PyFrame_LocalsToFast 100 1, Effect.PyTraceBack_Here 100]) :=
  ⟨by decide, by decide,
    ((call_trampoline_effects host39_raise whatstrings_filled (PyObject.object 7) sample_frame
      2 none).1 (by decide)).2 (by decide)⟩

end IkSetTrace
